import Mathlib

/-!
Verification development for the deploypilotorg/mcp-server repository.

The Python sources are shallowly embedded as Lean functions.  Python/JSON
values are modelled by the `Json` inductive (with `Json.null` playing the
role of Python `None`), handler state mutation by explicit state passing,
and every interaction with the outside world (filesystem, subprocesses,
clock, ports) by a `World` record of oracle functions that is threaded
through the definitions.  A Python function that can let an exception
escape is modelled with `PyResult`; code whose exceptions are caught and
turned into error strings is modelled as a total function returning the
same strings.

Modelling conventions, noted once here and referenced below:
* `dict.get` on a non-dict value raises `AttributeError` in Python; the
  total `Json.get` below returns the default instead.  Every claim under
  study quantifies over parameter *maps* (JSON objects), where the two
  agree.  The sole untried-exception path that decides a claim
  (`os.path.exists(None)`) is modelled explicitly via `PyResult`.
* `os.chdir` bracketing around subprocess calls is modelled by keying the
  subprocess oracles with the working directory the Python code would
  have changed into.
* Pure-OS calls whose failure the source does not distinguish
  (`os.makedirs`, `os.walk`, `open` of an existing file) are modelled as
  non-raising oracles.
-/

/-- Json models Python/JSON values as they flow through the server:
`null` is Python `None`, numbers are modelled as integers (no float
arithmetic is exercised by the code paths under study). -/
inductive Json where
  | null : Json
  | bool : Bool → Json
  | num : Int → Json
  | str : String → Json
  | arr : List Json → Json
  | obj : List (String × Json) → Json
deriving Repr

/-- Python truthiness (`if not x`) for the modelled values. -/
def Json.truthy : Json → Bool
  | .null => false
  | .bool b => b
  | .num n => n != 0
  | .str s => s != ""
  | .arr xs => !xs.isEmpty
  | .obj fs => !fs.isEmpty

/-- Python `d.get(key, default)` on a JSON object; on a non-object the
model returns the default (see header note on `AttributeError`). -/
def Json.get (j : Json) (k : String) (d : Json) : Json :=
  match j with
  | .obj fs => match fs.lookup k with
    | some v => v
    | none => d
  | _ => d

/-- Python `key in d` membership for a JSON object. -/
def Json.hasKey (j : Json) (k : String) : Bool :=
  match j with
  | .obj fs => (fs.lookup k).isSome
  | _ => false

/-- Json.items models `d.items()` for an object (empty for non-objects,
which would raise in Python; unreached on the paths under study). -/
def Json.items : Json → List (String × Json)
  | .obj fs => fs
  | _ => []

/-- Json.elems models iteration over a JSON array. -/
def Json.elems : Json → List Json
  | .arr xs => xs
  | _ => []

/-- Python equality between a value and a string literal (`x == "lit"`):
true exactly when the value is that string.  Every equality comparison in
the sources compares against a string literal, so this is the only value
equality the embedding needs. -/
def Json.eqStr (j : Json) (s : String) : Bool :=
  match j with
  | .str t => t == s
  | _ => false

/-- A single apostrophe character, used to build the many source message
strings that quote values. -/
def apos : String := (Char.ofNat 39).toString

/-- Python `str(x)` for the modelled values, as used inside f-strings.
Containers receive a simplified rendering; the claims only ever print
strings, numbers and `None`. -/
def pyStr : Json → String
  | .null => "None"
  | .bool b => if b then "True" else "False"
  | .num n => toString n
  | .str s => s
  | .arr _ => "[...]"
  | .obj _ => "{...}"

/-- ToolExecution mirrors utils/tool_base.py: the value object wrapping a
single string payload returned by a handler. -/
structure ToolExecution where
  content : String
deriving DecidableEq, Repr

/-- PyResult distinguishes a Python call that returns from one that lets
an exception escape (carrying the exception text). -/
inductive PyResult (α : Type) where
  | ok : α → PyResult α
  | exc : String → PyResult α
deriving DecidableEq, Repr

/-- Outcome of the command handler's shell invocation under its timeout. -/
inductive CommandOutcome where
  | done : Int → String → String → CommandOutcome
  | timedOut : CommandOutcome

/-- World packages every external effect the handlers perform as oracle
functions: filesystem predicates, directory walks, file contents,
subprocess results (argv-style `run` returns `none` for
`FileNotFoundError`, otherwise returncode/stdout/stderr; `shell` is keyed
by working directory and command line), fresh-name sources and the clock. -/
structure World where
  now : String
  pathExists : String → Bool
  fdExists : Int → Bool
  isFile : String → Bool
  isDir : String → Bool
  accessExec : String → Bool
  listdir : String → List String
  walk : String → List (String × List String × List String)
  readFile : String → String
  readJson : String → PyResult Json
  fileSize : String → Int
  run : String → List String → Option (Int × String × String)
  shell : String → String → Int × String × String
  commandShell : String → Json → Json → CommandOutcome
  mkdtemp : Nat → String
  epochTime : Int
  uuidHex : Nat → String
  freePort : Nat → Int
  spawnDies : List String → Option (String × String)

/-- Python `os.path.exists` applied to a modelled value: a string queries
the filesystem oracle, an int is a file-descriptor query, `None` (and
other non-path types) raises `TypeError`, which `os.path.exists` does not
catch (it only swallows `OSError`/`ValueError`). -/
def osPathExists (w : World) : Json → PyResult Bool
  | .str s => .ok (w.pathExists s)
  | .num n => .ok (w.fdExists n)
  | .bool b => .ok (w.fdExists (if b then 1 else 0))
  | .null => .exc "TypeError: stat: path should be string, bytes, os.PathLike or integer, not NoneType"
  | _ => .exc "TypeError: stat: path should be string, bytes, os.PathLike or integer"

/-- Python `os.path.join` for two path components. -/
def pathJoinS (a b : String) : String :=
  if b.take 1 == "/" then b
  else if a == "" then b
  else if a.endsWith "/" then a ++ b
  else a ++ "/" ++ b

/-- Python `os.path.join` when an argument may be a non-string value, in
which case Python raises `TypeError`. -/
def osPathJoin (a b : Json) : PyResult String :=
  match a, b with
  | .str x, .str y => .ok (pathJoinS x y)
  | _, _ => .exc "TypeError: join() argument must be str"

/-- Prefix test on character lists (structural, so the kernel can
evaluate it; the core string functions `splitOn`/`trim`/`replace` use
well-founded recursion and do not reduce in proofs, so the embedding
carries its own character-list equivalents below). -/
def listHasPre : List Char → List Char → Bool
  | [], _ => true
  | _ :: _, [] => false
  | a :: as, b :: bs => a == b && listHasPre as bs

/-- Occurrence search on character lists. -/
def subListAt (pat : List Char) : List Char → Bool
  | [] => pat.isEmpty
  | c :: rest => listHasPre pat (c :: rest) || subListAt pat rest

/-- Substring test (`pat in s` for strings). -/
def occursIn (s pat : String) : Bool :=
  subListAt pat.toList s.toList

/-- Characters after the last occurrence of a separator character
(Python `s.split(c)[-1]`). -/
def lastComponent (c : Char) (s : String) : String :=
  String.mk ((s.toList.reverse.takeWhile (fun x => x != c)).reverse)

/-- Characters before the first occurrence of a separator character
(Python `s.split(c, 1)[0]`). -/
def firstComponent (c : Char) (s : String) : String :=
  String.mk (s.toList.takeWhile (fun x => x != c))

/-- Python `os.path.basename`. -/
def pyBasename (p : String) : String := lastComponent '/' p

/-- Python `str.strip()`. -/
def pyStrip (s : String) : String :=
  String.mk (((s.toList.dropWhile Char.isWhitespace).reverse.dropWhile Char.isWhitespace).reverse)

/-- Python `s.split("\n")` (empties kept). -/
def splitLinesAux (acc : List Char) : List Char → List String
  | [] => [String.mk acc.reverse]
  | c :: rest =>
    if c == '\n' then String.mk acc.reverse :: splitLinesAux [] rest
    else splitLinesAux (c :: acc) rest

/-- Python `s.split("\n")`. -/
def splitLines (s : String) : List String := splitLinesAux [] s.toList

/-- Worker for `strReplace`, with a structural fuel bound (each step
consumes at least one character, so the string length suffices). -/
def replaceAllAux (pat rep : List Char) : Nat → List Char → List Char
  | _, [] => []
  | 0, l => l
  | fuel + 1, c :: rest =>
    if listHasPre pat (c :: rest) then
      rep ++ replaceAllAux pat rep fuel (List.drop (pat.length - 1) rest)
    else c :: replaceAllAux pat rep fuel rest

/-- Python `s.replace(pat, rep)` for a non-empty pattern (every
occurrence, left to right; the empty-pattern case is never exercised). -/
def strReplace (s pat rep : String) : String :=
  if pat == "" then s
  else String.mk (replaceAllAux pat.toList rep.toList s.toList.length s.toList)

/-- Last `n` elements of a list (Python `l[-n:]` for `n > 0`). -/
def lastN (n : Nat) (l : List α) : List α :=
  l.drop (l.length - n)

/-- Extension part of Python `os.path.splitext` (empty when the basename
has no dot preceded by a non-dot character). -/
def splitextExt (p : String) : String :=
  let b := (pyBasename p).toList
  let extLen := (b.reverse.takeWhile (fun c => c != '.')).length
  if extLen == b.length then ""
  else
    let stem := b.take (b.length - extLen - 1)
    if stem.all (fun c => c == '.') then ""
    else String.mk (b.drop (b.length - extLen - 1))

/-!
## handlers/autodeploy_handler.py

State and operations of `AutoDeployToolHandler`.  The handler instance
owns `repo_path` (set on every `execute` call), the `repo_name`/`repo_url`
fields inherited from `BaseHandler` (written only by the server's
`share_repo_info`), the saved `deploy_config`, and `deploy_status` with
its `current_deployment` slot and `history` list.
-/

/-- Deployment record status values (stored as strings in the source). -/
inductive DeployStatus where
  | prepared
  | in_progress
  | completed
  | failed
  | aborted
deriving DecidableEq, Repr

/-- String stored for each status value. -/
def DeployStatus.render : DeployStatus → String
  | .prepared => "prepared"
  | .in_progress => "in_progress"
  | .completed => "completed"
  | .failed => "failed"
  | .aborted => "aborted"

/-- DeploymentRecord models the `current_deployment` dict created by
`_prepare_deployment`: status, the config's "type" entry, the config
itself and the log list. -/
structure DeploymentRecord where
  status : DeployStatus
  dtype : Json
  config : Json
  log : List String
deriving Repr

/-- ADState is the instance state of `AutoDeployToolHandler`. -/
structure ADState where
  repo_path : Json
  repo_name : Json
  repo_url : Json
  deploy_config : Json
  current_deployment : Option DeploymentRecord
  history : List DeploymentRecord
deriving Repr

/-- Fresh handler state as built by `__init__` (all fields `None`, no
current deployment, empty history). -/
def ADState.init : ADState :=
  { repo_path := .null, repo_name := .null, repo_url := .null,
    deploy_config := .null, current_deployment := none, history := [] }

/-- Python `self.deploy_status["current_deployment"]["log"].append(s)`.
When the slot is `None` this is a no-op here; in the source that line
would raise inside a try/except, and it is only reached with a record
present. -/
def adLog (st : ADState) (s : String) : ADState :=
  { st with current_deployment :=
      st.current_deployment.map fun r => { r with log := r.log ++ [s] } }

/-- Python `current_deployment["status"] = x` (same note as `adLog`). -/
def adSetStatus (st : ADState) (x : DeployStatus) : ADState :=
  { st with current_deployment :=
      st.current_deployment.map fun r => { r with status := x } }

/-- Result dict `{"success": ..., "message": ...}` returned by the four
type-specific deploy routines. -/
structure DeployResult where
  success : Bool
  message : String
deriving Repr

/-- Shared tail of `_deploy_static` after the optional build-command run
(build-directory validation, simulated file deployment).  When the build
directory was just created by `os.makedirs`, the walk of the new empty
directory yields zero files. -/
def AutoDeployToolHandler.deploy_static_rest (w : World) (st : ADState)
    (config build_dir deploy_target : Json) : DeployResult × ADState :=
  let build_path := pathJoinS (pyStr st.repo_path) (pyStr build_dir)
  let exists0 := w.pathExists build_path
  let created := !exists0 && (config.get "create_if_missing" (.bool false)).truthy
  if !(exists0 || created) then
    (⟨false, s!"Build directory {apos}{pyStr build_dir}{apos} does not exist"⟩, st)
  else
    let st1 := adLog st s!"Deploying to {pyStr deploy_target}"
    let n : Nat := if created then 0 else ((w.walk build_path).map (fun e => e.2.2.length)).sum
    let st2 := adLog st1 s!"Would deploy {n} files from {pyStr build_dir} to {pyStr deploy_target}"
    let target := pyStr deploy_target
    let bdir := pyStr build_dir
    (⟨true, s!"Static deployment simulation successful.\n\nWould deploy {n} files from {apos}{bdir}{apos} to {apos}{target}{apos}.\n\nIn a production environment, use this command to actually copy files:\nrsync -av {build_path}/ {target}/"⟩, st2)

/-- Python `_deploy_static`: optional build-command execution (run in the
repository directory) with log capture, then the shared tail. -/
def AutoDeployToolHandler.deploy_static (w : World) (st : ADState) (config : Json) :
    DeployResult × ADState :=
  let build_dir := config.get "build_dir" (.str "")
  let build_command := config.get "build_command" (.str "")
  let deploy_target := config.get "deploy_target" (.str "")
  let cwd := pyStr st.repo_path
  if build_command.truthy then
    let st1 := adLog st s!"Running build command: {pyStr build_command}"
    let out3 := w.shell cwd (pyStr build_command)
    let rc := out3.1
    let stdout := out3.2.1
    let stderr := out3.2.2
    let st2 := if stdout != "" then adLog st1 s!"Build output: {stdout.take 500}..." else st1
    let st3 := if stderr != "" then adLog st2 s!"Build errors: {stderr}" else st2
    if rc != 0 then
      (⟨false, s!"Build command failed with exit code {rc}"⟩, st3)
    else
      AutoDeployToolHandler.deploy_static_rest w st3 config build_dir deploy_target
  else
    AutoDeployToolHandler.deploy_static_rest w st config build_dir deploy_target

/-- Python `_deploy_docker`: builds the image in the repository directory
and simulates running the container. -/
def AutoDeployToolHandler.deploy_docker (w : World) (st : ADState) (config : Json) :
    DeployResult × ADState :=
  let dockerfile_path := config.get "dockerfile_path" (.str "Dockerfile")
  let image_name := config.get "image_name" (.str "")
  let container_name := config.get "container_name" (.str (pyStr image_name ++ "-container"))
  let ports := config.get "ports" (.arr [])
  let cwd := pyStr st.repo_path
  let st1 := adLog st s!"Building Docker image: {pyStr image_name}"
  let build_cmd := s!"docker build -t {pyStr image_name} -f {pyStr dockerfile_path} ."
  let st2 := adLog st1 s!"Running: {build_cmd}"
  let out3 := w.shell cwd build_cmd
  let rc := out3.1
  let stdout := out3.2.1
  let stderr := out3.2.2
  let st3 := if stdout != "" then adLog st2 s!"Build output: {stdout.take 500}..." else st2
  let st4 := if stderr != "" then adLog st3 s!"Build errors: {stderr}" else st3
  if rc != 0 then
    (⟨false, s!"Docker build failed with exit code {rc}"⟩, st4)
  else
    let port_mappings := " ".intercalate (ports.elems.map fun p => s!"-p {pyStr p}")
    let runCmd := s!"docker run -d --name {pyStr container_name} {port_mappings} {pyStr image_name}"
    let st5 := adLog st4 s!"Would start container with: {runCmd}"
    (⟨true, s!"Docker deployment simulation successful.\n\nDocker image {apos}{pyStr image_name}{apos} built successfully.\n\nIn a production environment, use this command to run the container:\n{runCmd}"⟩, st5)

/-- Shared tail of `_deploy_heroku` after the app has been found or
created: git-remote check/creation and the simulated push. -/
def AutoDeployToolHandler.heroku_rest (w : World) (st : ADState) (app_name : Json)
    (cwd : String) : DeployResult × ADState :=
  let out3 := w.shell cwd "git remote -v"
  let stdout := out3.2.1
  let remote_exists := if stdout != "" then occursIn stdout "heroku\t" else false
  let push := fun (stp : ADState) =>
    let st6 := adLog stp "Would push to Heroku with: git push heroku master"
    ((⟨true, s!"Heroku deployment simulation successful.\n\nHeroku app {apos}{pyStr app_name}{apos} is ready for deployment.\n\nIn a production environment, use this command to deploy:\ngit push heroku master"⟩ : DeployResult), st6)
  if !remote_exists then
    let add_remote_cmd := s!"heroku git:remote -a {pyStr app_name}"
    let st4 := adLog st s!"Adding git remote: {add_remote_cmd}"
    let r3 := w.shell cwd add_remote_cmd
    if r3.1 != 0 then
      let e := if r3.2.2 == "" then "Unknown error" else r3.2.2
      (⟨false, s!"Failed to add Heroku git remote: {e}"⟩, st4)
    else push st4
  else push st

/-- Python `_deploy_heroku`: app existence check, optional creation, then
the shared remote/push tail. -/
def AutoDeployToolHandler.deploy_heroku (w : World) (st : ADState) (config : Json) :
    DeployResult × ADState :=
  let app_name := config.get "app_name" (.str "")
  let cwd := pyStr st.repo_path
  let st1 := adLog st s!"Checking Heroku app: {pyStr app_name}"
  let check_app_cmd := s!"heroku apps:info --app {pyStr app_name}"
  let st2 := adLog st1 s!"Running: {check_app_cmd}"
  let r1 := w.shell cwd check_app_cmd
  let app_exists := r1.1 == 0
  if !app_exists && (config.get "create_if_missing" (.bool false)).truthy then
    let create_app_cmd := s!"heroku apps:create {pyStr app_name}"
    let st3 := adLog st2 s!"Creating Heroku app: {create_app_cmd}"
    let r2 := w.shell cwd create_app_cmd
    if r2.1 != 0 then
      let e := if r2.2.2 == "" then "Unknown error" else r2.2.2
      (⟨false, s!"Failed to create Heroku app: {e}"⟩, st3)
    else AutoDeployToolHandler.heroku_rest w st3 app_name cwd
  else if !app_exists then
    (⟨false, s!"Heroku app {apos}{pyStr app_name}{apos} does not exist. Set {apos}create_if_missing{apos} to true to create it automatically."⟩, st2)
  else AutoDeployToolHandler.heroku_rest w st2 app_name cwd

/-- Python `_deploy_custom`: checks the script, determines the command
line from executability and extension, appends optional args, and
simulates execution (always succeeds once the script exists). -/
def AutoDeployToolHandler.deploy_custom (w : World) (st : ADState) (config : Json) :
    DeployResult × ADState :=
  let script_path := config.get "script_path" (.str "")
  let full_script_path := pathJoinS (pyStr st.repo_path) (pyStr script_path)
  if !w.pathExists full_script_path then
    (⟨false, s!"Script not found at {apos}{pyStr script_path}{apos}"⟩, st)
  else
    let st1 := adLog st s!"Running custom deployment script: {pyStr script_path}"
    let sp := pyStr script_path
    let cmd0 :=
      if w.accessExec full_script_path then s!"./{sp}"
      else if sp.endsWith ".py" then s!"python {sp}"
      else if sp.endsWith ".sh" then s!"bash {sp}"
      else if sp.endsWith ".js" then s!"node {sp}"
      else s!"bash {sp}"
    let cmd :=
      if config.hasKey "args" then
        match config.get "args" .null with
        | .arr l => cmd0 ++ " " ++ " ".intercalate (l.map pyStr)
        | _ => cmd0
      else cmd0
    let st2 := adLog st1 s!"Running: {cmd}"
    let rp := pyStr st.repo_path
    let st3 := adLog st2 s!"Would execute: {cmd} in {rp}"
    (⟨true, s!"Custom deployment simulation successful.\n\nWould execute:\n{cmd}\n\nIn directory: {rp}"⟩, st3)

/-- Success block of `_prepare_deployment` (lines 146-154): installs the
fresh `prepared` record as the current deployment. -/
def AutoDeployToolHandler.prep_finish (stf : ADState) (deploy_type deploy_config : Json) :
    ToolExecution × ADState :=
  ((⟨s!"Deployment preparation successful. Type: {pyStr deploy_type}. Ready to start deployment."⟩ : ToolExecution),
   { stf with
       current_deployment :=
         some ⟨.prepared, deploy_type, deploy_config, ["Deployment preparation complete"]⟩ })

/-- Validation body of `_prepare_deployment` for `type == "static"`
(lines 66-83). -/
def AutoDeployToolHandler.prep_static (w : World) (st : ADState) (deploy_config : Json) :
    ToolExecution × ADState :=
  let deploy_type := deploy_config.get "type" (.str "")
  let build_dir := deploy_config.get "build_dir" (.str "")
  if !build_dir.truthy then
    (⟨"Error: Build directory not specified for static deployment"⟩, st)
  else
    let build_command := deploy_config.get "build_command" (.str "")
    if !build_command.truthy then
      (⟨"Error: Build command not specified for static deployment"⟩, st)
    else
      let deploy_target := deploy_config.get "deploy_target" (.str "")
      if !deploy_target.truthy then
        (⟨"Error: Deploy target not specified for static deployment"⟩, st)
      else
        match osPathJoin st.repo_path build_dir with
        | .exc e => (⟨s!"Error preparing deployment: {e}"⟩, st)
        | .ok build_path =>
          if !w.pathExists build_path
              && !(deploy_config.get "create_if_missing" (.bool false)).truthy then
            (⟨s!"Error: Build directory {apos}{pyStr build_dir}{apos} does not exist. Set {apos}create_if_missing{apos} to true if you want it to be created."⟩, st)
          else AutoDeployToolHandler.prep_finish st deploy_type deploy_config

/-- Validation body of `_prepare_deployment` for `type == "docker"`
(lines 85-104). -/
def AutoDeployToolHandler.prep_docker (w : World) (st : ADState) (deploy_config : Json) :
    ToolExecution × ADState :=
  let deploy_type := deploy_config.get "type" (.str "")
  let dockerfile_path := deploy_config.get "dockerfile_path" (.str "Dockerfile")
  let image_name := deploy_config.get "image_name" (.str "")
  if !image_name.truthy then
    (⟨"Error: Docker image name not specified"⟩, st)
  else
    match osPathJoin st.repo_path dockerfile_path with
    | .exc e => (⟨s!"Error preparing deployment: {e}"⟩, st)
    | .ok full_dockerfile_path =>
      if !w.pathExists full_dockerfile_path then
        (⟨s!"Error: Dockerfile not found at {apos}{pyStr dockerfile_path}{apos}"⟩, st)
      else
        match w.run "" ["docker", "--version"] with
        | some r =>
          if r.1 != 0 then (⟨"Error: Docker is not installed or not accessible"⟩, st)
          else AutoDeployToolHandler.prep_finish st deploy_type deploy_config
        | none => (⟨"Error: Docker is not installed or not in PATH"⟩, st)

/-- Validation body of `_prepare_deployment` for `type == "heroku"`
(lines 106-126); a `FileNotFoundError` from the auth probe is caught only
by the enclosing catch-all (the inner except handles CalledProcessError
alone). -/
def AutoDeployToolHandler.prep_heroku (w : World) (st : ADState) (deploy_config : Json) :
    ToolExecution × ADState :=
  let deploy_type := deploy_config.get "type" (.str "")
  let app_name := deploy_config.get "app_name" (.str "")
  if !app_name.truthy then
    (⟨"Error: Heroku app name not specified"⟩, st)
  else
    match w.run "" ["heroku", "--version"] with
    | none => (⟨"Error: Heroku CLI is not installed or not in PATH"⟩, st)
    | some r =>
      if r.1 != 0 then (⟨"Error: Heroku CLI is not installed or not accessible"⟩, st)
      else
        match w.run "" ["heroku", "auth:whoami"] with
        | none =>
          (⟨s!"Error preparing deployment: [Errno 2] No such file or directory: {apos}heroku{apos}"⟩, st)
        | some r2 =>
          if r2.1 != 0 then
            (⟨s!"Error: Not authenticated with Heroku. Please run {apos}heroku login{apos} first."⟩, st)
          else AutoDeployToolHandler.prep_finish st deploy_type deploy_config

/-- Validation body of `_prepare_deployment` for `type == "custom"`
(lines 128-141); note the non-executable-script warning returns without
preparing anything. -/
def AutoDeployToolHandler.prep_custom (w : World) (st : ADState) (deploy_config : Json) :
    ToolExecution × ADState :=
  let deploy_type := deploy_config.get "type" (.str "")
  let script_path := deploy_config.get "script_path" (.str "")
  if !script_path.truthy then
    (⟨"Error: Script path not specified for custom deployment"⟩, st)
  else
    match osPathJoin st.repo_path script_path with
    | .exc e => (⟨s!"Error preparing deployment: {e}"⟩, st)
    | .ok full_script_path =>
      if !w.pathExists full_script_path then
        (⟨s!"Error: Script not found at {apos}{pyStr script_path}{apos}"⟩, st)
      else if !w.accessExec full_script_path then
        (⟨s!"Warning: Script {apos}{pyStr script_path}{apos} is not executable. Will attempt to run with interpreter."⟩, st)
      else AutoDeployToolHandler.prep_finish st deploy_type deploy_config

/-- Python `_prepare_deployment`: validates the configuration by type
(static/docker/heroku/custom), saving `deploy_config` before the type
check exactly as the source does, and on success installs the fresh
`prepared` record as the current deployment. -/
def AutoDeployToolHandler.prepare_deployment (w : World) (st0 : ADState)
    (deploy_config : Json) : ToolExecution × ADState :=
  if !deploy_config.truthy then
    (⟨"Error: Deployment configuration not provided"⟩, st0)
  else
    let st := { st0 with deploy_config := deploy_config }
    let deploy_type := deploy_config.get "type" (.str "")
    if !deploy_type.truthy then
      (⟨"Error: Deployment type not specified in configuration"⟩, st)
    else if deploy_type.eqStr "static" then
      AutoDeployToolHandler.prep_static w st deploy_config
    else if deploy_type.eqStr "docker" then
      AutoDeployToolHandler.prep_docker w st deploy_config
    else if deploy_type.eqStr "heroku" then
      AutoDeployToolHandler.prep_heroku w st deploy_config
    else if deploy_type.eqStr "custom" then
      AutoDeployToolHandler.prep_custom w st deploy_config
    else
      (⟨s!"Error: Unsupported deployment type {apos}{pyStr deploy_type}{apos}. Supported types: static, docker, heroku, custom"⟩, st)

/-- Dispatch to the type-specific deploy routine, mirroring the
if/elif chain of `_start_deployment` (lines 180-191); `none` is the final
else branch (unsupported type). -/
def AutoDeployToolHandler.routine (w : World) (st : ADState)
    (deploy_type deploy_config : Json) : Option (DeployResult × ADState) :=
  if deploy_type.eqStr "static" then some (AutoDeployToolHandler.deploy_static w st deploy_config)
  else if deploy_type.eqStr "docker" then some (AutoDeployToolHandler.deploy_docker w st deploy_config)
  else if deploy_type.eqStr "heroku" then some (AutoDeployToolHandler.deploy_heroku w st deploy_config)
  else if deploy_type.eqStr "custom" then some (AutoDeployToolHandler.deploy_custom w st deploy_config)
  else none

/-- Python `_start_deployment`: requires a saved config and a `prepared`
current record; marks it `in_progress`, runs the type-specific routine,
and on success marks it `completed` and archives it to history, clearing
the current slot; on failure marks it `failed` and leaves it current. -/
def AutoDeployToolHandler.start_deployment (w : World) (st : ADState) :
    ToolExecution × ADState :=
  if !st.deploy_config.truthy then
    (⟨"Error: No deployment configuration. Please run prepare_deployment first."⟩, st)
  else
    match st.current_deployment with
    | none => (⟨"Error: No deployment prepared. Please run prepare_deployment first."⟩, st)
    | some cur =>
      if cur.status != .prepared then
        (⟨s!"Error: Deployment is in {apos}{cur.status.render}{apos} state, not {apos}prepared{apos}. Cannot start."⟩, st)
      else
        let st1 := { st with
          current_deployment :=
            some { cur with status := .in_progress, log := cur.log ++ ["Starting deployment..."] } }
        match AutoDeployToolHandler.routine w st1 cur.dtype cur.config with
        | some res =>
          let result := res.1
          let st2 := res.2
          if result.success then
            let st3 := adLog (adSetStatus st2 .completed) "Deployment completed successfully"
            let msg := result.message
            ((⟨s!"Deployment successful!\n\n{msg}"⟩ : ToolExecution),
             { st3 with history := st3.history ++ st3.current_deployment.toList,
                        current_deployment := none })
          else
            let msg := result.message
            let st3 := adLog (adSetStatus st2 .failed) s!"Deployment failed: {msg}"
            (⟨s!"Deployment failed: {msg}"⟩, st3)
        | none =>
          let dt := pyStr cur.dtype
          let st2 := adLog (adSetStatus st1 .failed) s!"Error: Unsupported deployment type {apos}{dt}{apos}"
          (⟨s!"Error: Unsupported deployment type {apos}{dt}{apos}"⟩, st2)

/-- Configuration lines of the current-deployment section of
`_get_deployment_status` (dict/list values are skipped). -/
def adConfigLines (config : Json) : List String :=
  config.items.filterMap fun kv =>
    match kv.2 with
    | .obj _ => none
    | .arr _ => none
    | v => some s!"  - {kv.1}: {pyStr v}"

/-- Current-deployment section of `_get_deployment_status` (empty when no
deployment is current). -/
def adCurrentBlock : Option DeploymentRecord → List String
  | none => []
  | some cur =>
    ["\nCurrent Deployment:", s!"- Status: {cur.status.render}", s!"- Type: {pyStr cur.dtype}"]
    ++ ["- Configuration:"] ++ adConfigLines cur.config
    ++ (if cur.log.isEmpty then [] else
        ["- Logs:"] ++ (lastN 10 cur.log).map (fun l => s!"  - {l}")
        ++ (if cur.log.length > 10 then [s!"  - ... and {cur.log.length - 10} more log entries"] else []))

/-- History section of `_get_deployment_status` (last five entries, with
the source's `len(history) - i` numbering over the slice). -/
def adHistoryBlock (history : List DeploymentRecord) : List String :=
  if history.isEmpty then []
  else
    ["\nDeployment History:"]
    ++ ((lastN 5 history).enum.flatMap fun t =>
        [s!"- Deployment {history.length - t.1}:",
         s!"  - Status: {t.2.status.render}",
         s!"  - Type: {pyStr t.2.dtype}"])
    ++ (if history.length > 5 then [s!"  ... and {history.length - 5} more past deployments"] else [])

/-- Python `_get_deployment_status`: read-only rendering of the current
record and the history. -/
def AutoDeployToolHandler.get_deployment_status (st : ADState) : ToolExecution :=
  if st.current_deployment.isNone && st.history.isEmpty then
    ⟨"No deployments have been initiated yet."⟩
  else
    ⟨"\n".intercalate (["Deployment Status:"] ++ adCurrentBlock st.current_deployment
      ++ adHistoryBlock st.history)⟩

/-- Python `_abort_deployment`: only an `in_progress` record can be
aborted; it is marked `aborted` and archived to history, clearing the
current slot. -/
def AutoDeployToolHandler.abort_deployment (st : ADState) : ToolExecution × ADState :=
  match st.current_deployment with
  | none => (⟨"No active deployment to abort."⟩, st)
  | some cur =>
    if cur.status != .in_progress then
      (⟨s!"Deployment is in {apos}{cur.status.render}{apos} state, not {apos}in_progress{apos}. Cannot abort."⟩, st)
    else
      let st2 := adLog (adSetStatus st .aborted) "Deployment aborted by user"
      ((⟨"Deployment aborted successfully."⟩ : ToolExecution),
       { st2 with history := st2.history ++ st2.current_deployment.toList,
                  current_deployment := none })

/-- Depth-bounded rendering of `json.dumps(x, indent=2)`, used only for
the recommended-config message of `_detect_deployment_type` (those
configs are at most two levels deep, so the fuel never runs out there);
`ind` is the current indentation. -/
def jsonDumps2 (fuel : Nat) (ind : String) (j : Json) : String :=
  match fuel with
  | 0 => "..."
  | fuel + 1 =>
    match j with
    | .null => "null"
    | .bool b => if b then "true" else "false"
    | .num n => toString n
    | .str s => "\"" ++ s ++ "\""
    | .arr [] => "[]"
    | .arr xs =>
      "[\n" ++ ",\n".intercalate (xs.map fun x => ind ++ "  " ++ jsonDumps2 fuel (ind ++ "  ") x)
        ++ "\n" ++ ind ++ "]"
    | .obj [] => "{}"
    | .obj fs =>
      "\x7b\n" ++ ",\n".intercalate (fs.map fun kv =>
          ind ++ "  \"" ++ kv.1 ++ "\": " ++ jsonDumps2 fuel (ind ++ "  ") kv.2)
        ++ "\n" ++ ind ++ "\x7d"

/-- Python `_detect_deployment_type`: read-only heuristic scan of the
repository root producing a recommended configuration.  A
`json.JSONDecodeError` from reading package.json propagates to the
routine's catch-all and becomes an error string. -/
def AutoDeployToolHandler.detect_deployment_type (w : World) (st : ADState) : ToolExecution :=
  let rp := pyStr st.repo_path
  let files := w.listdir rp
  let pkgRes : PyResult (List String) :=
    if files.contains "package.json" then
      match w.readJson (pathJoinS rp "package.json") with
      | .ok pkg =>
        let deps := pkg.get "dependencies" (.obj [])
        .ok ((if deps.hasKey "react" then ["React"] else [])
          ++ (if deps.hasKey "vue" then ["Vue.js"] else [])
          ++ (if deps.hasKey "next" then ["Next.js"] else [])
          ++ (if deps.hasKey "gatsby" then ["Gatsby"] else [])
          ++ (if deps.hasKey "angular" || deps.hasKey "@angular/core" then ["Angular"] else []))
      | .exc e => .exc e
    else .ok []
  match pkgRes with
  | .exc e => ⟨s!"Error detecting deployment type: {e}"⟩
  | .ok pkgInd =>
    let reqInd : List String :=
      if files.contains "requirements.txt" then
        let content := (w.readFile (pathJoinS rp "requirements.txt")).toLower
        (if occursIn content "django" then ["Django"] else [])
          ++ (if occursIn content "flask" then ["Flask"] else [])
          ++ (if occursIn content "fastapi" then ["FastAPI"] else [])
      else []
    let dockerInd : List String :=
      if files.contains "Dockerfile" || files.contains "docker-compose.yml" then ["Docker"] else []
    let nodeInd : List String :=
      if files.contains "server.js" || files.contains "app.js" then ["Node.js"] else []
    let fi := pkgInd ++ reqInd ++ dockerInd ++ nodeInd
    let build_dirs := ["build", "dist", "public", "out", "static"].filter fun item =>
      w.pathExists (pathJoinS rp item) && w.isDir (pathJoinS rp item)
    let renderMsg := fun (cfg : Json) =>
      let framework_str := ", ".intercalate fi
      let config_str := jsonDumps2 8 "" cfg
      (⟨s!"Detected frameworks/technologies: {framework_str}\n\nRecommended deployment configuration:\n```json\n{config_str}\n```\n\nUse this configuration with the {apos}prepare_deployment{apos} action to set up deployment."⟩ : ToolExecution)
    if fi.contains "Docker" then
      renderMsg (.obj [
        ("type", .str "docker"),
        ("dockerfile_path", .str (if files.contains "Dockerfile" then "Dockerfile" else "docker/Dockerfile")),
        ("image_name", .str (pyBasename rp).toLower),
        ("container_name", .str ((pyBasename rp).toLower ++ "-container")),
        ("ports", .arr [.str "8080:80"])])
    else if ["React", "Vue.js", "Angular", "Next.js", "Gatsby"].any fi.contains then
      let build_command :=
        if fi.contains "React" || fi.contains "Vue.js" || fi.contains "Angular" then "npm run build"
        else if fi.contains "Next.js" then "npm run build"
        else if fi.contains "Gatsby" then "gatsby build"
        else ""
      let build_dir :=
        if fi.contains "React" || fi.contains "Vue.js" || fi.contains "Angular" then
          (if build_dirs.contains "build" then "build" else "dist")
        else if fi.contains "Next.js" then (if build_dirs.contains "out" then "out" else ".next")
        else if fi.contains "Gatsby" then "public"
        else ""
      renderMsg (.obj [
        ("type", .str "static"),
        ("build_command", .str build_command),
        ("build_dir", .str build_dir),
        ("deploy_target", .str "/var/www/html"),
        ("create_if_missing", .bool true)])
    else if ["Django", "Flask", "FastAPI"].any fi.contains then
      renderMsg (.obj [
        ("type", .str "custom"),
        ("script_path", .str "deploy.sh"),
        ("requirements", .str "requirements.txt"),
        ("wsgi_app", .str (if fi.contains "Flask" || fi.contains "FastAPI" then "app:app"
          else "project.wsgi:application"))])
    else if fi.contains "Node.js" then
      renderMsg (.obj [
        ("type", .str "custom"),
        ("script_path", .str "deploy.sh"),
        ("start_command", .str "npm start"),
        ("env_file", .str ".env")])
    else
      ⟨"Could not determine specific deployment type. Please specify deployment configuration manually."⟩

/-- Python `AutoDeployToolHandler.execute`: stores the call's `repo_path`
parameter (or `None`) into the handler, applies the two guards, and
dispatches on the action.  Note the second guard evaluates
`os.path.exists(self.repo_path)` before its action exemptions, so a
`get_status`/`abort_deployment` call without `repo_path` raises
`TypeError` out of `execute`. -/
def AutoDeployToolHandler.execute (w : World) (st0 : ADState) (params : Json) :
    PyResult ToolExecution × ADState :=
  let action := params.get "action" (.str "")
  let st := { st0 with repo_path := params.get "repo_path" .null }
  if !st.repo_path.truthy && !(action.eqStr "get_status") && !(action.eqStr "abort_deployment") then
    (.ok ⟨"Error: Repository path not provided. Please clone a repository first."⟩, st)
  else
    match osPathExists w st.repo_path with
    | .exc e => (.exc e, st)
    | .ok pexists =>
      if !pexists && !(action.eqStr "get_status") && !(action.eqStr "abort_deployment") then
        let rp := pyStr st.repo_path
        (.ok ⟨s!"Error: Repository path {rp} does not exist."⟩, st)
      else if action.eqStr "prepare_deployment" then
        let r := AutoDeployToolHandler.prepare_deployment w st (params.get "deploy_config" (.obj []))
        (.ok r.1, r.2)
      else if action.eqStr "start_deployment" then
        let r := AutoDeployToolHandler.start_deployment w st
        (.ok r.1, r.2)
      else if action.eqStr "get_status" then
        (.ok (AutoDeployToolHandler.get_deployment_status st), st)
      else if action.eqStr "abort_deployment" then
        let r := AutoDeployToolHandler.abort_deployment st
        (.ok r.1, r.2)
      else if action.eqStr "detect_deployment_type" then
        (.ok (AutoDeployToolHandler.detect_deployment_type w st), st)
      else
        (.ok ⟨s!"Error: Unknown action {apos}{pyStr action}{apos}. Available actions: prepare_deployment, start_deployment, get_status, abort_deployment, detect_deployment_type"⟩, st)

/-!
## handlers/basic_handlers.py and utils/tool_base.py

Every handler class subclasses `BaseHandler`, whose `__init__` gives the
instance the shared-context fields `repo_path`/`repo_name`/`repo_url`
(all `None`).  `RepoCtx` models exactly those three fields and serves as
the whole state of the handlers that add nothing else.
-/

/-- RepoCtx is the shared repository context every handler instance
carries (utils/tool_base.py `BaseHandler.__init__`). -/
structure RepoCtx where
  repo_path : Json
  repo_name : Json
  repo_url : Json
deriving Repr

/-- BaseHandler fields as initialized (`None` each). -/
def RepoCtx.init : RepoCtx := ⟨.null, .null, .null⟩

/-- TimeToolHandler.execute: returns the formatted current time. -/
def TimeToolHandler.execute (w : World) (_params : Json) : ToolExecution :=
  ⟨w.now⟩

/-- Value produced by evaluating a calculator expression: the handler's
lambda table yields ints for add/subtract/multiply, a string for division
by zero, and a Python float (true division, kept as a numerator/denominator
pair here) otherwise. -/
inductive PyVal where
  | int : Int → PyVal
  | str : String → PyVal
  | frac : Int → Int → PyVal
deriving Repr

/-- Python `str(result)` for calculator values.  For an exact division the
float repr is `q.0`; inexact float reprs are out of scope of the claims
and rendered as a fraction. -/
def PyVal.render : PyVal → String
  | .int n => toString n
  | .str s => s
  | .frac x y => if y ∣ x then toString (x / y) ++ ".0" else s!"{x}/{y}"

/-- Digit-string parse (none when empty or non-digit). -/
def digitsToNat : List Char → Option Nat
  | [] => none
  | cs => cs.foldl (fun acc c => acc.bind fun n =>
      if c.isDigit then some (n * 10 + (c.toNat - 48)) else none) (some 0)

/-- Integer literal (optional minus sign then digits). -/
def intOfChars (cs : List Char) : Option Int :=
  match cs with
  | '-' :: rest => (digitsToNat rest).map fun n => -(n : Int)
  | _ => (digitsToNat cs).map fun n => (n : Int)

/-- Parse a calculator expression of the form `name(int, int)` (with
optional surrounding spaces), the only shape the handler's restricted
`eval` environment can evaluate to a value; anything else makes `eval`
raise. -/
def parseCalcExpr (s : String) : Option (String × Int × Int) :=
  let cs := (pyStrip s).toList
  let name := cs.takeWhile Char.isAlpha
  if name.isEmpty then none
  else
    match (cs.drop name.length).dropWhile (fun x => x == ' ') with
    | '(' :: rest2 =>
      if rest2.getLast? == some ')' then
        let inner := rest2.dropLast
        let a := inner.takeWhile (fun x => x != ',')
        if a.length == inner.length then none
        else
          let b := inner.drop (a.length + 1)
          if b.contains ',' then none
          else
            match intOfChars ((pyStrip (String.mk a)).toList),
                intOfChars ((pyStrip (String.mk b)).toList) with
            | some x, some y => some (String.mk name, x, y)
            | _, _ => none
      else none
    | _ => none

/-- CalcToolHandler.execute: evaluates the expression against the
restricted environment `{add, subtract, multiply, divide}`; every `eval`
exception is caught and rendered as `Error: ...`. -/
def CalcToolHandler.execute (params : Json) : ToolExecution :=
  let expression := params.get "expression" (.str "")
  match expression with
  | .str s =>
    match parseCalcExpr s with
    | some t =>
      let f := t.1
      let x := t.2.1
      let y := t.2.2
      if f == "add" then ⟨(PyVal.int (x + y)).render⟩
      else if f == "subtract" then ⟨(PyVal.int (x - y)).render⟩
      else if f == "multiply" then ⟨(PyVal.int (x * y)).render⟩
      else if f == "divide" then
        if y != 0 then ⟨(PyVal.frac x y).render⟩
        else ⟨(PyVal.str "Division by zero error").render⟩
      else ⟨s!"Error: name {apos}{f}{apos} is not defined"⟩
    | none => ⟨"Error: invalid expression"⟩
  | _ => ⟨"Error: eval() arg 1 must be a string, bytes or code object"⟩

/-- WeatherToolHandler.execute: static five-city lookup table. -/
def WeatherToolHandler.execute (params : Json) : ToolExecution :=
  let location := params.get "location" (.str "")
  if !location.truthy then ⟨"Error: Location not provided"⟩
  else
    let weather_data : List (String × String × String) :=
      [("New York", "Sunny", "72°F"),
       ("London", "Rainy", "60°F"),
       ("Tokyo", "Cloudy", "65°F"),
       ("Sydney", "Partly Cloudy", "70°F"),
       ("Paris", "Clear", "68°F")]
    match location with
    | .str loc =>
      match weather_data.lookup loc with
      | some d => ⟨s!"Weather in {loc}: {d.1}, {d.2}"⟩
      | none => ⟨s!"No weather data available for {loc}"⟩
    | v => ⟨s!"No weather data available for {pyStr v}"⟩

/-!
## handlers/github_handler.py

`GitHubRepoToolHandler` with its four actions.  The clone action mutates
the handler's repository context; `tmpCtr` feeds the `tempfile.mkdtemp`
oracle and is bumped on each clone.
-/

/-- Simplified `os.path.relpath` for the paths produced by `os.walk`,
which always extend the base directory. -/
def hasPre (pre s : String) : Bool := s.take pre.length == pre

/-- Relative path of `p` under `base` (identity when `p` does not extend
`base`, a case the walks never produce). -/
def relpathS (p base : String) : String :=
  if p == base then "."
  else if hasPre (base ++ "/") p then p.drop (base.length + 1)
  else p

/-- Python `os.path.dirname`. -/
def dirnameS (p : String) : String :=
  let r := p.toList.reverse.dropWhile (fun c => c != '/')
  let r2 := r.dropWhile (fun c => c == '/')
  if r2.isEmpty then (if r.isEmpty then "" else "/")
  else String.mk r2.reverse

/-- The two-decimal `:.2f` rendering of `centi / 100` (float rounding
noise of the source's division is out of scope; the value is truncated to
centi-units before rendering). -/
def fmt2 (centi : Int) : String :=
  let q := centi / 100
  let r := (centi % 100).natAbs
  let pad := if r < 10 then "0" else ""
  s!"{q}.{pad}{r}"

/-- Clone action of `GitHubRepoToolHandler.execute` (lines 25-50): resets
the handler's repository context to a fresh temp directory and the
requested URL *before* running `git clone`, then reports success or the
captured stderr; a missing `git` binary raises `FileNotFoundError`, which
the handler does not catch. -/
def GitHubRepoToolHandler.cloneAction (w : World) (tmpCtr : Nat) (st : RepoCtx)
    (params : Json) : PyResult ToolExecution × RepoCtx × Nat :=
  let repo_url := params.get "repo_url" (.str "")
  if !repo_url.truthy then (.ok ⟨"Error: Repository URL not provided"⟩, st, tmpCtr)
  else
    -- shutil.rmtree of any previous clone directory: filesystem effect
    -- with no observable trace in the model.
    let path := w.mkdtemp tmpCtr
    let st1 := { st with repo_path := .str path, repo_url := repo_url }
    match repo_url with
    | .str u =>
      let st2 := { st1 with repo_name := .str (strReplace (lastComponent (Char.ofNat 47) u) ".git" "") }
      match w.run "" ["git", "clone", u, path] with
      | some r =>
        if r.1 != 0 then (.ok ⟨s!"Error cloning repository: {r.2.2}"⟩, st2, tmpCtr + 1)
        else (.ok ⟨s!"Successfully cloned repository: {u} to {path}"⟩, st2, tmpCtr + 1)
      | none =>
        (.exc s!"FileNotFoundError: [Errno 2] No such file or directory: {apos}git{apos}", st2, tmpCtr + 1)
    | _ =>
      -- repo_url.split("/") on a non-string raises before the try block
      (.exc "AttributeError: object has no attribute split", st1, tmpCtr + 1)

/-- The `list_files` action: walk of the repository (or a sub-path),
with directory and file markers. -/
def GitHubRepoToolHandler.listFilesAction (w : World) (st : RepoCtx) (params : Json) :
    ToolExecution :=
  if !st.repo_path.truthy then ⟨"Error: No repository is currently cloned"⟩
  else
    let rp := pyStr st.repo_path
    let path := params.get "path" (.str "")
    let full_path := if path.truthy then pathJoinS rp (pyStr path) else rp
    if !w.pathExists full_path then
      ⟨s!"Error: Path {pyStr path} does not exist in the repository"⟩
    else
      let file_list := (w.walk full_path).flatMap fun e =>
        let rel0 := relpathS e.1 rp
        let rel := if rel0 == "." then "" else rel0
        e.2.1.map (fun d => s!"📁 {pathJoinS rel d}")
          ++ e.2.2.map (fun f => s!"📄 {pathJoinS rel f}")
      let file_list_str := "\n".intercalate file_list
      ⟨s!"Files in repository {pyStr st.repo_name}:\n\n{file_list_str}"⟩

/-- The `read_file` action. -/
def GitHubRepoToolHandler.readFileAction (w : World) (st : RepoCtx) (params : Json) :
    ToolExecution :=
  if !st.repo_path.truthy then ⟨"Error: No repository is currently cloned"⟩
  else
    let file_path := params.get "file_path" (.str "")
    if !file_path.truthy then ⟨"Error: File path not provided"⟩
    else
      let fp := pyStr file_path
      let full_path := pathJoinS (pyStr st.repo_path) fp
      if !w.pathExists full_path || !w.isFile full_path then
        ⟨s!"Error: File {fp} does not exist in the repository"⟩
      else
        let file_content := w.readFile full_path
        ⟨s!"Contents of {fp}:\n\n```\n{file_content}\n```"⟩

/-- The `get_repo_info` action: sizes from a walk, branch and last commit
from git subprocesses run in the repository directory (a missing git
binary is caught by the action's catch-all). -/
def GitHubRepoToolHandler.repoInfoAction (w : World) (st : RepoCtx) (_params : Json) :
    ToolExecution :=
  if !st.repo_path.truthy then ⟨"Error: No repository is currently cloned"⟩
  else
    let rp := pyStr st.repo_path
    let entries := w.walk rp
    let file_count := (entries.map (fun e => e.2.2.length)).sum
    let total_size := (entries.map (fun e =>
      (e.2.2.map (fun f => w.fileSize (pathJoinS e.1 f))).sum)).sum
    match w.run rp ["git", "branch", "--show-current"] with
    | none => ⟨s!"Error getting repository information: [Errno 2] No such file or directory: {apos}git{apos}"⟩
    | some rb =>
      match w.run rp ["git", "log", "-1", "--pretty=format:%h - %s (%cr)"] with
      | none => ⟨s!"Error getting repository information: [Errno 2] No such file or directory: {apos}git{apos}"⟩
      | some rl =>
        let current_branch := pyStrip rb.2.1
        let last_commit := pyStrip rl.2.1
        let size_kb := fmt2 (total_size * 100 / 1024)
        let size_mb := fmt2 (total_size * 100 / (1024 * 1024))
        let nm := pyStr st.repo_name
        let url := pyStr st.repo_url
        let info_str := "\n".intercalate [
          s!"name: {nm}",
          s!"url: {url}",
          s!"branch: {current_branch}",
          s!"last_commit: {last_commit}",
          s!"file_count: {file_count}",
          s!"size: {size_mb} MB ({size_kb} KB)"]
        ⟨s!"Repository Information:\n\n{info_str}"⟩

/-- GitHubRepoToolHandler.execute: action dispatch. -/
def GitHubRepoToolHandler.execute (w : World) (tmpCtr : Nat) (st : RepoCtx) (params : Json) :
    PyResult ToolExecution × RepoCtx × Nat :=
  let action := params.get "action" (.str "")
  if action.eqStr "clone" then
    GitHubRepoToolHandler.cloneAction w tmpCtr st params
  else if action.eqStr "list_files" then
    (.ok (GitHubRepoToolHandler.listFilesAction w st params), st, tmpCtr)
  else if action.eqStr "read_file" then
    (.ok (GitHubRepoToolHandler.readFileAction w st params), st, tmpCtr)
  else if action.eqStr "get_repo_info" then
    (.ok (GitHubRepoToolHandler.repoInfoAction w st params), st, tmpCtr)
  else
    (.ok ⟨s!"Error: Unknown action {apos}{pyStr action}{apos}. Available actions: clone, list_files, read_file, get_repo_info"⟩, st, tmpCtr)

/-- Modelled from the spec: `GitHubCloneToolHandler` — server.py imports
it from handlers.github_handler, but that module (the only github handler
source under src/) defines `GitHubRepoToolHandler` alone, so the class
itself is not under src/.  Spec §4.2 (step 5) and §6 bind the
repository-clone tool to a handler that takes the call's `repo_url`,
clones it, sets the shared repository context, and returns an error
string (not an exception) when the clone fails; that is the clone action
of `GitHubRepoToolHandler` (github_handler.py lines 25-50) applied
directly to the call's params. -/
def GitHubCloneToolHandler.execute (w : World) (tmpCtr : Nat) (st : RepoCtx) (params : Json) :
    PyResult ToolExecution × RepoCtx × Nat :=
  GitHubRepoToolHandler.cloneAction w tmpCtr st params

/-- Modelled from the spec: `GitHubListFilesToolHandler` — imported and
registered by server.py but missing from src/; it is constructed holding
a reference to the clone handler, whose context `cloneCtx` it reads.  Per
spec §4.6 it returns a descriptive error string when no repository has
been cloned, and otherwise a listing of the cloned repository's files. -/
def GitHubListFilesToolHandler.execute (w : World) (cloneCtx : RepoCtx) (_params : Json) :
    ToolExecution :=
  match cloneCtx.repo_path with
  | .str p =>
    let lines := (w.walk p).flatMap fun e => e.2.2.map fun f => pathJoinS (relpathS e.1 p) f
    ⟨"Files in repository:\n\n" ++ "\n".intercalate lines⟩
  | _ => ⟨"Error: No repository has been cloned"⟩

/-!
## handlers/command_handler.py
-/

/-- CommandExecutionToolHandler.execute: runs the command under the
timeout (default 30); the outcome oracle is keyed by command, working
directory and timeout value. -/
def CommandExecutionToolHandler.execute (w : World) (params : Json) : ToolExecution :=
  let command := params.get "command" (.str "")
  if !command.truthy then ⟨"Error: Command not provided"⟩
  else
    let working_dir := params.get "working_dir" .null
    let timeout := params.get "timeout" (.num 30)
    match w.commandShell (pyStr command) working_dir timeout with
    | .done rc out err =>
      if rc != 0 then
        ⟨s!"Command execution failed with exit code {rc}:\n\nSTDOUT:\n{out}\n\nSTDERR:\n{err}"⟩
      else
        let res := s!"Command executed successfully:\n\nSTDOUT:\n{out}"
        if pyStrip err != "" then ⟨res ++ s!"\n\nSTDERR:\n{err}"⟩ else ⟨res⟩
    | .timedOut =>
      ⟨s!"Error: Command execution timed out after {pyStr timeout} seconds"⟩

/-!
## handlers/code_analysis_handler.py
-/

/-- Extension-to-language table of `_analyze_languages`. -/
def extensionMap : List (String × String) :=
  [(".py", "Python"), (".js", "JavaScript"), (".jsx", "JavaScript (React)"),
   (".ts", "TypeScript"), (".tsx", "TypeScript (React)"), (".html", "HTML"),
   (".css", "CSS"), (".scss", "SCSS"), (".java", "Java"), (".cpp", "C++"),
   (".c", "C"), (".go", "Go"), (".rs", "Rust"), (".rb", "Ruby"),
   (".php", "PHP"), (".swift", "Swift"), (".kt", "Kotlin"), (".md", "Markdown"),
   (".json", "JSON"), (".yml", "YAML"), (".yaml", "YAML"), (".toml", "TOML")]

/-- Counting into an insertion-ordered map (Python dict semantics of
`language_stats`). -/
def bumpCount (m : List (String × Nat)) (k : String) : List (String × Nat) :=
  if (m.lookup k).isSome then
    m.map fun p => if p.1 == k then (p.1, p.2 + 1) else p
  else m ++ [(k, 1)]

/-- Python repr of `round(pct, 2)` for an exactly-two-decimal value
(`centi` is the percentage in hundredths, truncated; binary float noise
is out of scope). -/
def fmtPct (centi : Int) : String :=
  let q := centi / 100
  let r := (centi % 100).natAbs
  let d := r / 10
  let pad := if r < 10 then "0" else ""
  if r % 10 == 0 then s!"{q}.{d}" else s!"{q}.{pad}{r}"

/-- Python `_analyze_languages`: walk (skipping paths containing `.git`),
count known extensions, sort by count descending (stable), render counts
and percentages. -/
def CodeAnalysisToolHandler.analyze_languages (w : World) (rp : String) : ToolExecution :=
  let counted := (w.walk rp).foldl (fun m e =>
    if occursIn e.1 ".git" then m
    else e.2.2.foldl (fun m file =>
      match extensionMap.lookup (splitextExt file) with
      | some lang => bumpCount m lang
      | none => m) m) []
  let total_files := (counted.map (·.2)).sum
  let sorted_stats := counted.mergeSort fun a b => b.2 ≤ a.2
  let results := sorted_stats.map fun p =>
    s!"- {p.1}: {p.2} files ({fmtPct ((p.2 : Int) * 10000 / (total_files : Int))}%)"
  if results.isEmpty then
    ⟨"No recognized programming languages found in the repository."⟩
  else
    ⟨"\n".intercalate ("Language distribution in the repository:" :: results)⟩

/-- Python `_find_todos`: marker scan over every walked non-binary file,
one entry per matching marker per line. -/
def CodeAnalysisToolHandler.find_todos (w : World) (rp : String) : ToolExecution :=
  let todo_markers := ["TODO", "FIXME", "HACK", "XXX", "BUG", "OPTIMIZE"]
  let skipExts := [".jpg", ".png", ".gif", ".pdf", ".zip", ".tar", ".gz"]
  let todo_list := (w.walk rp).flatMap fun e =>
    if occursIn e.1 ".git" then []
    else e.2.2.flatMap fun file =>
      if skipExts.contains (splitextExt file) then []
      else
        let file_path := pathJoinS e.1 file
        let rel_path := relpathS file_path rp
        (splitLines (w.readFile file_path)).enum.flatMap fun li =>
          todo_markers.filterMap fun marker =>
            if occursIn li.2 (marker ++ ":") || occursIn li.2 (marker ++ " ") then
              some s!"{rel_path}:{li.1 + 1}: {pyStrip li.2}"
            else none
  if todo_list.isEmpty then
    ⟨"No TODO comments found in the repository."⟩
  else
    ⟨"TODO comments found in the repository:\n\n" ++ "\n".intercalate todo_list⟩

/-- Python `_analyze_complexity`: only for existing `.py` files, via the
`pip show radon` probe and a `radon cc -s` run; a missing `pip`/`radon`
binary raises `FileNotFoundError` into the action's catch-all. -/
def CodeAnalysisToolHandler.analyze_complexity (w : World) (rp : String) (file_path : Json) :
    PyResult ToolExecution :=
  if !file_path.truthy then .ok ⟨"Error: File path not provided"⟩
  else
    match osPathJoin (.str rp) file_path with
    | .exc e => .exc e
    | .ok full_path =>
      let fp := pyStr file_path
      if !w.pathExists full_path || !w.isFile full_path then
        .ok ⟨s!"Error: File {fp} does not exist"⟩
      else if splitextExt fp != ".py" then
        .ok ⟨"Error: Complexity analysis is currently only supported for Python files"⟩
      else
        match w.run "" ["pip", "show", "radon"] with
        | none =>
          .ok ⟨s!"Error analyzing code complexity: [Errno 2] No such file or directory: {apos}pip{apos}"⟩
        | some pr =>
          if pr.1 != 0 then
            .ok ⟨s!"Error: The {apos}radon{apos} package is not installed. Unable to analyze complexity."⟩
          else
            match w.run "" ["radon", "cc", "-s", full_path] with
            | none =>
              .ok ⟨s!"Error analyzing code complexity: [Errno 2] No such file or directory: {apos}radon{apos}"⟩
            | some rr =>
              if rr.2.1 != "" then
                .ok ⟨s!"Code complexity analysis for {fp}:\n\n```\n{rr.2.1}\n```"⟩
              else
                .ok ⟨s!"No complexity analysis results for {fp}. The file might be empty or have very simple functions."⟩

/-- Python `_search_code`: grep over the repository with per-line path
relativization (`str.replace` replaces every occurrence). -/
def CodeAnalysisToolHandler.search_code (w : World) (rp : String) (query : Json) :
    ToolExecution :=
  if !query.truthy then ⟨"Error: Search query not provided"⟩
  else
    match query with
    | .str q =>
      match w.run "" ["grep", "-r", "--include=*.*", "-n", q, rp] with
      | none =>
        ⟨s!"Error searching code: [Errno 2] No such file or directory: {apos}grep{apos}"⟩
      | some r =>
        if r.2.1 != "" then
          let lines := splitLines (pyStrip r.2.1)
          let formatted_lines := lines.map fun line =>
            let file_with_match := firstComponent (Char.ofNat 58) line
            if file_with_match == "" then line
            else strReplace line file_with_match (relpathS file_with_match rp)
          let search_results := s!"Search results for {apos}{q}{apos}:\n\n"
            ++ "\n".intercalate (formatted_lines.take 100)
          if lines.length > 100 then
            ⟨search_results ++ s!"\n\n... and {lines.length - 100} more matches"⟩
          else ⟨search_results⟩
        else ⟨s!"No matches found for {apos}{q}{apos} in the repository"⟩
    | _ =>
      -- a non-string query inside the subprocess argv raises inside the
      -- action's try and is caught there
      ⟨"Error searching code: expected str, bytes or os.PathLike object"⟩

/-- Python `_get_dependencies`: collects requirements/setup files and
package.json files, reads packages, renders the dependency report. -/
def CodeAnalysisToolHandler.get_dependencies (w : World) (rp : String) : ToolExecution :=
  let requirements_files := (w.walk rp).flatMap fun e =>
    (if e.2.2.contains "requirements.txt" then [pathJoinS e.1 "requirements.txt"] else [])
      ++ (if e.2.2.contains "setup.py" then [pathJoinS e.1 "setup.py"] else [])
  let package_json_files := (w.walk rp).flatMap fun e =>
    if e.2.2.contains "package.json" then [pathJoinS e.1 "package.json"] else []
  let pyFiles := requirements_files.map fun req => relpathS req rp
  let pyPackages := requirements_files.flatMap fun req =>
    if req.endsWith "requirements.txt" then
      (splitLines (w.readFile req)).filterMap fun line0 =>
        let line := pyStrip line0
        if line != "" && !hasPre "#" line then some line else none
    else []
  let jsFiles := package_json_files.map fun pkg => relpathS pkg rp
  let jsDeps := package_json_files.flatMap fun pkg =>
    match w.readJson pkg with
    | .ok pkg_data =>
      if pkg_data.hasKey "dependencies" then
        (pkg_data.get "dependencies" .null).items.map fun kv => s!"{kv.1}@{pyStr kv.2}"
      else []
    | .exc _ => []
  let jsDevDeps := package_json_files.flatMap fun pkg =>
    match w.readJson pkg with
    | .ok pkg_data =>
      if pkg_data.hasKey "devDependencies" then
        (pkg_data.get "devDependencies" .null).items.map fun kv => s!"{kv.1}@{pyStr kv.2}"
      else []
    | .exc _ => []
  if requirements_files.isEmpty && package_json_files.isEmpty then
    ⟨"No dependency files found in the repository"⟩
  else
    let pySection :=
      if requirements_files.isEmpty then []
      else
        ["\nPython dependencies:"]
          ++ pyFiles.map (fun f => s!"- Found in: {f}")
          ++ (if pyPackages.isEmpty then []
              else ["  Packages:"] ++ (pyPackages.take 20).map (fun p => s!"  - {p}")
                ++ (if pyPackages.length > 20 then [s!"  - ... and {pyPackages.length - 20} more"] else []))
    let jsSection :=
      if package_json_files.isEmpty then []
      else
        ["\nJavaScript dependencies:"]
          ++ jsFiles.map (fun f => s!"- Found in: {f}")
          ++ (if jsDeps.isEmpty then []
              else ["  Dependencies:"] ++ (jsDeps.take 20).map (fun p => s!"  - {p}")
                ++ (if jsDeps.length > 20 then [s!"  - ... and {jsDeps.length - 20} more"] else []))
          ++ (if jsDevDeps.isEmpty then []
              else ["  Dev Dependencies:"] ++ (jsDevDeps.take 20).map (fun p => s!"  - {p}")
                ++ (if jsDevDeps.length > 20 then [s!"  - ... and {jsDevDeps.length - 20} more"] else []))
    ⟨"\n".intercalate ("Dependencies found in the repository:" :: (pySection ++ jsSection))⟩

/-- CodeAnalysisToolHandler.execute: stores the call's `repo_path` into
the handler, guards on presence and existence, then dispatches.  Unlike
the autodeploy handler there is no action exemption, so the `None` path
is returned as an error string before `os.path.exists` runs. -/
def CodeAnalysisToolHandler.execute (w : World) (st0 : RepoCtx) (params : Json) :
    PyResult ToolExecution × RepoCtx :=
  let action := params.get "action" (.str "")
  let st := { st0 with repo_path := params.get "repo_path" .null }
  if !st.repo_path.truthy then
    (.ok ⟨"Error: Repository path not provided. Please clone a repository first."⟩, st)
  else
    match osPathExists w st.repo_path with
    | .exc e => (.exc e, st)
    | .ok pexists =>
      if !pexists then
        (.ok ⟨s!"Error: Repository path {pyStr st.repo_path} does not exist."⟩, st)
      else
        let rp := pyStr st.repo_path
        if action.eqStr "analyze_languages" then
          (.ok (CodeAnalysisToolHandler.analyze_languages w rp), st)
        else if action.eqStr "find_todos" then
          (.ok (CodeAnalysisToolHandler.find_todos w rp), st)
        else if action.eqStr "analyze_complexity" then
          (CodeAnalysisToolHandler.analyze_complexity w rp (params.get "file_path" (.str "")), st)
        else if action.eqStr "search_code" then
          (.ok (CodeAnalysisToolHandler.search_code w rp (params.get "query" (.str ""))), st)
        else if action.eqStr "get_dependencies" then
          (.ok (CodeAnalysisToolHandler.get_dependencies w rp), st)
        else
          (.ok ⟨s!"Error: Unknown action {apos}{pyStr action}{apos}. Available actions: analyze_languages, find_todos, analyze_complexity, search_code, get_dependencies"⟩, st)

/-!
## handlers/ui_generator_handler.py

The handler additionally owns `ui_processes` (session id → process
entry); a spawned process itself is opaque, so an entry keeps the command
line and metadata, and the `spawnDies` oracle answers the poll made after
the startup sleep.  `uiCtr` feeds the port/uuid oracles and is bumped per
spawn attempt.
-/

/-- Entry of `ui_processes` (the process handle is opaque; its command
line identifies it to the `spawnDies` oracle). -/
structure UIProcEntry where
  cmd : List String
  app_path : String
  url : String
  port : Int
deriving Repr

/-- The apostrophe as a character (for the lstrip chains below). -/
def aposChar : Char := Char.ofNat 39

/-- Python `_detect_app_type` (pure): classify by extension and content
markers; `none` is the source's `None`. -/
def UIGeneratorToolHandler.detect_app_type (file_path content : String) : Option String :=
  let c := content.toLower
  if file_path.endsWith ".py" then
    if occursIn c "streamlit" then some "Streamlit"
    else if occursIn c "flask" then some "Flask"
    else if occursIn c "django" then some "Django"
    else if occursIn c "fastapi" then some "FastAPI"
    else some "Python"
  else if file_path.endsWith ".js" then
    if occursIn c "react" then some "React"
    else if occursIn c "express" then some "Express.js"
    else if occursIn c "vue" then some "Vue.js"
    else some "JavaScript"
  else if file_path.endsWith ".html" then some "HTML"
  else if file_path == "package.json" then some "Node.js"
  else if file_path == "requirements.txt" then some "Python"
  else none

/-- Python `str.lstrip(chars)` for a single character. -/
def lstripChar (c : Char) (s : String) : String :=
  String.mk (s.toList.dropWhile (fun x => x == c))

/-- Python `_generate_app_description` (pure): first substantial comment
block, else a type-based fallback. -/
def UIGeneratorToolHandler.generate_app_description (file_path content : String) : String :=
  let step := fun (acc : List String × List String) (line : String) =>
    let comment_blocks := acc.1
    let current_block := acc.2
    let stripped := pyStrip line
    if hasPre "#" stripped || hasPre "//" stripped || hasPre "/*" stripped
        || hasPre "*" stripped then
      let comment_text := pyStrip (lstripChar '*' (lstripChar '/' (lstripChar '#' stripped)))
      if comment_text != "" then (comment_blocks, current_block ++ [comment_text])
      else (comment_blocks, current_block)
    else if hasPre "\"\"\"" stripped || hasPre (apos ++ apos ++ apos) stripped then
      let docstring_text := pyStrip (lstripChar aposChar (lstripChar '"' stripped))
      if docstring_text != "" then (comment_blocks, current_block ++ [docstring_text])
      else (comment_blocks, current_block)
    else if !current_block.isEmpty then
      (comment_blocks ++ [" ".intercalate current_block], [])
    else (comment_blocks, current_block)
  let acc := (splitLines content).foldl step ([], [])
  let comment_blocks :=
    if !acc.2.isEmpty then acc.1 ++ [" ".intercalate acc.2] else acc.1
  match comment_blocks.find? (fun block => block.length > 10) with
  | some block => if block.length > 200 then block.take 200 ++ "..." else block
  | none =>
    if file_path.endsWith ".py" then "Python application"
    else if file_path.endsWith ".js" then "JavaScript application"
    else if file_path.endsWith ".html" then "HTML application"
    else if file_path == "package.json" then "Node.js application"
    else if file_path == "requirements.txt" then "Python application with dependencies"
    else "Application with unknown type"

/-- Filename match against the last component of a scan pattern
(`fnmatch` restricted to the `*.ext` and literal patterns used). -/
def fnmatchLast (pattern filename : String) : Bool :=
  let pat := lastComponent (Char.ofNat 47) pattern
  if hasPre "*." pat then filename.endsWith (pat.drop 1) else filename == pat

/-- Python `_scan_apps`: pattern scan (duplicates across patterns are
kept, as in the source), then per-file classification and description. -/
def UIGeneratorToolHandler.scan_apps (w : World) (rp : String) : ToolExecution :=
  let patterns := ["**/*.py", "**/app.py", "**/main.py", "**/server.py", "**/index.js",
    "**/app.js", "**/main.js", "**/index.html", "**/package.json", "**/requirements.txt"]
  let app_files := patterns.flatMap fun pattern =>
    (w.walk rp).flatMap fun e =>
      e.2.2.filterMap fun filename =>
        if fnmatchLast pattern filename then
          some (relpathS (pathJoinS e.1 filename) rp)
        else none
  if app_files.isEmpty then
    ⟨"No potential application entry points found in the repository."⟩
  else
    let app_info := app_files.filterMap fun file_path =>
      let full_path := pathJoinS rp file_path
      let content := (w.readFile full_path).take 2000
      match UIGeneratorToolHandler.detect_app_type file_path content with
      | some app_type =>
        some (file_path, app_type, UIGeneratorToolHandler.generate_app_description file_path content)
      | none => none
    if app_info.isEmpty then
      ⟨"No recognizable applications found in the repository."⟩
    else
      let body := String.join (app_info.enum.map fun t =>
        s!"{t.1 + 1}. {t.2.1} ({t.2.2.1})\n   Description: {t.2.2.2}\n\n")
      ⟨s!"Found potential applications in the repository:\n\n" ++ body
        ++ s!"\nYou can generate and run a UI for any of these applications using the {apos}generate_ui{apos} action with the app_path parameter."⟩

/-- Shared tail of the three spawn routines: store the entry, sleep, poll
(via the `spawnDies` oracle) and report. -/
def uiSpawnTail (w : World) (procs : List (String × UIProcEntry)) (session_id : String)
    (entry : UIProcEntry) (okMsg failHead : String) :
    ToolExecution × List (String × UIProcEntry) :=
  let procs1 := procs ++ [(session_id, entry)]
  match w.spawnDies entry.cmd with
  | some r =>
    (⟨s!"{failHead}\n\nSTDOUT:\n{r.1}\n\nSTDERR:\n{r.2}"⟩, procs1)
  | none => (⟨okMsg⟩, procs1)

/-- Python `_run_python_app`: dependency install, framework-specific
command line, spawn, poll. -/
def UIGeneratorToolHandler.run_python_app (w : World) (rp : String)
    (procs : List (String × UIProcEntry)) (uiCtr : Nat) (app_path : String) :
    ToolExecution × List (String × UIProcEntry) :=
  let full_path := pathJoinS rp app_path
  let app_dir := dirnameS full_path
  let requirements_path := pathJoinS app_dir "requirements.txt"
  let has_requirements := w.pathExists requirements_path
  let content := (w.readFile full_path).toLower
  let port := w.freePort uiCtr
  let session_id := s!"ui_{w.epochTime}_{w.uuidHex uiCtr}"
  let cmd : List String :=
    if occursIn content "streamlit" then
      ["python", "-m", "streamlit", "run", full_path, "--server.port", toString port]
    else if occursIn content "flask" then
      ["python", "-m", "flask", "run", "--port", toString port]
    else if occursIn content "fastapi" then
      ["python", "-m", "uvicorn", strReplace (pyBasename full_path) ".py" ":app", "--port", toString port]
    else ["python", full_path]
  let app_url :=
    if occursIn content "streamlit" || occursIn content "flask" || occursIn content "fastapi" then
      s!"http://localhost:{port}"
    else "No web interface available for this script type"
  let installFailed : Option String :=
    if has_requirements then
      match w.run app_dir ["python", "-m", "pip", "install", "-r", requirements_path] with
      | some r => if r.1 != 0 then some r.2.2 else none
      | none => some ""
    else none
  match installFailed with
  | some errText => (⟨s!"Error installing dependencies:\n{errText}"⟩, procs)
  | none =>
    uiSpawnTail w procs session_id ⟨cmd, app_path, app_url, port⟩
      (s!"UI generated for {app_path}!\n\nSession ID: {session_id}\nURL: {app_url}\n\nThe application is now running. You can access it at the URL above.\nTo stop the application, use the {apos}stop_ui{apos} action with the session ID.")
      "Application failed to start:"

/-- Python `_run_js_app`: npm install when package.json is present,
`npm start` or `node`, spawn, poll. -/
def UIGeneratorToolHandler.run_js_app (w : World) (rp : String)
    (procs : List (String × UIProcEntry)) (uiCtr : Nat) (app_path : String) :
    ToolExecution × List (String × UIProcEntry) :=
  let full_path := pathJoinS rp app_path
  let app_dir := dirnameS full_path
  let package_json_path := pathJoinS app_dir "package.json"
  let has_package_json := w.pathExists package_json_path
  let port := w.freePort uiCtr
  let session_id := s!"ui_{w.epochTime}_{w.uuidHex uiCtr}"
  let proceed := fun (cmd : List String) (app_url : String) =>
    uiSpawnTail w procs session_id ⟨cmd, app_path, app_url, port⟩
      (s!"UI generated for {app_path}!\n\nSession ID: {session_id}\nURL: {app_url}\n\nThe application is now running. You can access it at the URL above.\nTo stop the application, use the {apos}stop_ui{apos} action with the session ID.")
      "Application failed to start:"
  if has_package_json then
    match w.readJson package_json_path with
    | .exc e => (⟨s!"Error running JavaScript application: {e}"⟩, procs)
    | .ok package_data =>
      match w.run app_dir ["npm", "install"] with
      | none => (⟨s!"Error running JavaScript application: [Errno 2] No such file or directory: {apos}npm{apos}"⟩, procs)
      | some r =>
        if r.1 != 0 then (⟨s!"Error installing npm dependencies:\n{r.2.2}"⟩, procs)
        else
          if package_data.hasKey "scripts" && (package_data.get "scripts" .null).hasKey "start" then
            proceed ["npm", "start"] s!"http://localhost:{port}"
          else
            proceed ["node", full_path] "No web interface directly available for this Node.js script"
  else
    proceed ["node", full_path] "No web interface directly available for this Node.js script"

/-- Python `_serve_html`: spawn a simple HTTP server in the file's
directory. -/
def UIGeneratorToolHandler.serve_html (w : World) (rp : String)
    (procs : List (String × UIProcEntry)) (uiCtr : Nat) (app_path : String) :
    ToolExecution × List (String × UIProcEntry) :=
  let full_path := pathJoinS rp app_path
  let port := w.freePort uiCtr
  let session_id := s!"ui_{w.epochTime}_{w.uuidHex uiCtr}"
  let cmd := ["python", "-m", "http.server", toString port]
  let file_name := pyBasename full_path
  let app_url := s!"http://localhost:{port}/{file_name}"
  uiSpawnTail w procs session_id ⟨cmd, app_path, app_url, port⟩
    (s!"HTTP server started for {app_path}!\n\nSession ID: {session_id}\nURL: {app_url}\n\nThe HTML file is now being served. You can access it at the URL above.\nTo stop the server, use the {apos}stop_ui{apos} action with the session ID.")
    "Server failed to start:"

/-- Python `_stop_ui`: terminate and forget the session's process. -/
def UIGeneratorToolHandler.stop_ui (procs : List (String × UIProcEntry)) (session_id : Json) :
    ToolExecution × List (String × UIProcEntry) :=
  match session_id with
  | .str sid =>
    if (procs.lookup sid).isSome then
      (⟨s!"UI session {sid} has been stopped"⟩, procs.filter fun p => p.1 != sid)
    else (⟨"Error: Invalid or unknown session ID"⟩, procs)
  | _ => (⟨"Error: Invalid or unknown session ID"⟩, procs)

/-- UIGeneratorToolHandler.execute: guards on the shared `repo_path`
context (set only by the server's fan-out), then dispatches.  As in the
other handlers, `os.path.exists` on a truthy non-string context raises. -/
def UIGeneratorToolHandler.execute (w : World) (st : RepoCtx)
    (procs : List (String × UIProcEntry)) (uiCtr : Nat) (params : Json) :
    PyResult ToolExecution × List (String × UIProcEntry) × Nat :=
  let action := params.get "action" (.str "")
  if !st.repo_path.truthy then
    (.ok ⟨"Error: No repository is currently cloned. Please clone a repository first."⟩, procs, uiCtr)
  else
    match osPathExists w st.repo_path with
    | .exc e => (.exc e, procs, uiCtr)
    | .ok pexists =>
      if !pexists then
        (.ok ⟨s!"Error: Repository path {pyStr st.repo_path} does not exist."⟩, procs, uiCtr)
      else
        let rp := pyStr st.repo_path
        if action.eqStr "scan_apps" then
          (.ok (UIGeneratorToolHandler.scan_apps w rp), procs, uiCtr)
        else if action.eqStr "generate_ui" then
          let app_path := params.get "app_path" (.str "")
          if !app_path.truthy then
            (.ok ⟨"Error: Application path not provided"⟩, procs, uiCtr)
          else
            let ap := pyStr app_path
            let full_path := pathJoinS rp ap
            if !w.pathExists full_path then
              (.ok ⟨s!"Error: Application path {apos}{ap}{apos} does not exist"⟩, procs, uiCtr)
            else if ap.endsWith ".py" then
              let r := UIGeneratorToolHandler.run_python_app w rp procs uiCtr ap
              (.ok r.1, r.2, uiCtr + 1)
            else if ap.endsWith ".js" then
              let r := UIGeneratorToolHandler.run_js_app w rp procs uiCtr ap
              (.ok r.1, r.2, uiCtr + 1)
            else if ap.endsWith ".html" then
              let r := UIGeneratorToolHandler.serve_html w rp procs uiCtr ap
              (.ok r.1, r.2, uiCtr + 1)
            else
              (.ok ⟨s!"Unsupported application type for {ap}. Currently supporting .py, .js, and .html files."⟩, procs, uiCtr)
        else if action.eqStr "stop_ui" then
          let session_id := params.get "session_id" (.str "")
          if !session_id.truthy then
            (.ok ⟨"Error: Session ID not provided"⟩, procs, uiCtr)
          else
            let r := UIGeneratorToolHandler.stop_ui procs session_id
            (.ok r.1, r.2, uiCtr)
        else
          (.ok ⟨s!"Error: Unknown action {apos}{pyStr action}{apos}. Available actions: scan_apps, generate_ui, stop_ui"⟩, procs, uiCtr)

/-!
## src/server.py

Registry (`_setup_tools`), shared-context fan-out (`share_repo_info`),
dispatcher and the two transport adapters of `MCPServer`.  The method
`handle_initialize` is embedded under the name `handleInit`.
-/

/-- Handler keys of the `self.handlers` dict built by `_setup_handlers`. -/
inductive HKey where
  | time
  | calcH
  | weather
  | github_clone
  | github_list_files
  | command
  | code_analysis
  | autodeploy
  | ui_generator
deriving DecidableEq, Repr

/-- Descriptor triple exposed by the list/init responses. -/
structure ToolDescriptor where
  name : String
  description : String
  inputSchema : Json
deriving Repr

/-- Response envelope union of the dispatcher. -/
inductive Envelope where
  | initResult (supportedVersions : List String) (tools : List ToolDescriptor)
  | listToolsResult (tools : List ToolDescriptor)
  | executeToolResult (content : String)
  | error (message : String)
deriving Repr

/-- Registry entry: descriptor plus the bound handler instance. -/
structure Tool where
  name : String
  description : String
  inputSchema : Json
  handler : HKey
deriving Repr

/-- Helper for the recurring `{"type": "object", "properties": {...},
"required": [...]}` schema shape. -/
def objSchema (props : List (String × Json)) (req : List String) : Json :=
  .obj [("type", .str "object"), ("properties", .obj props),
        ("required", .arr (req.map Json.str))]

/-- Helper for a `{"type": "string", "description": ...}` property. -/
def strProp (desc : String) : Json :=
  .obj [("type", .str "string"), ("description", .str desc)]

/-- The static tool registry built by `_setup_tools`. -/
def mcpTools : List Tool := [
  { name := "get_time", description := "Get the current time",
    inputSchema := objSchema [] [], handler := .time },
  { name := "calculate", description := "Perform a simple calculation",
    inputSchema := objSchema [("expression", strProp "The expression to calculate")] ["expression"],
    handler := .calcH },
  { name := "get_weather", description := "Get weather information for a location",
    inputSchema := objSchema [("location", strProp "The location to get weather for")] ["location"],
    handler := .weather },
  { name := "github_clone", description := "Clone a GitHub repository",
    inputSchema := objSchema [("repo_url", strProp "URL of the GitHub repository to clone")] ["repo_url"],
    handler := .github_clone },
  { name := "github_list_files", description := "List files in a cloned GitHub repository",
    inputSchema := .obj [("type", .str "object"), ("properties", .obj [])],
    handler := .github_list_files },
  { name := "execute_command", description := "Execute a command in the system shell",
    inputSchema := objSchema [("command", strProp "The command to execute")] ["command"],
    handler := .command },
  { name := "analyze_code", description := "Analyze code in a repository",
    inputSchema := objSchema [("path", strProp "Path to the code to analyze")] ["path"],
    handler := .code_analysis },
  { name := "autodeploy", description := "Automatically deploy a repository",
    inputSchema := objSchema [("repo_url", strProp "URL of the repository to deploy")] ["repo_url"],
    handler := .autodeploy },
  { name := "ui_generator", description := "Generate UI for a repository",
    inputSchema := objSchema [("repo_url", strProp "URL of the repository to generate UI for")] ["repo_url"],
    handler := .ui_generator }]

/-- ServerState bundles the instance state of every handler built by
`_setup_handlers`, plus the freshness counters of the model's oracles. -/
structure ServerState where
  time : RepoCtx
  calcH : RepoCtx
  weather : RepoCtx
  github_clone : RepoCtx
  github_list_files : RepoCtx
  command : RepoCtx
  code_analysis : RepoCtx
  autodeploy : ADState
  ui_generator : RepoCtx
  ui_processes : List (String × UIProcEntry)
  tmpCtr : Nat
  uiCtr : Nat
deriving Repr

/-- Server state right after `MCPServer.__init__`. -/
def ServerState.init : ServerState :=
  { time := RepoCtx.init, calcH := RepoCtx.init, weather := RepoCtx.init,
    github_clone := RepoCtx.init, github_list_files := RepoCtx.init,
    command := RepoCtx.init, code_analysis := RepoCtx.init,
    autodeploy := ADState.init, ui_generator := RepoCtx.init,
    ui_processes := [], tmpCtr := 0, uiCtr := 0 }

/-- Python `share_repo_info`: copy the github-clone handler's three
repository fields into every other handler that has them (every handler
subclasses `BaseHandler`, so all eight others receive the copy). -/
def MCPServer.share_repo_info (st : ServerState) : ServerState :=
  let g := st.github_clone
  { st with
    time := g, calcH := g, weather := g, github_list_files := g,
    command := g, code_analysis := g, ui_generator := g,
    autodeploy := { st.autodeploy with
      repo_path := g.repo_path, repo_name := g.repo_name, repo_url := g.repo_url } }

/-- Descriptor list shared by the initialize and list_tools responses
(`[{name, description, inputSchema} for tool in self.tools]`). -/
def MCPServer.toolsPayload : List ToolDescriptor :=
  mcpTools.map fun t => ⟨t.name, t.description, t.inputSchema⟩

/-- Python `handle_initialize` (embedded as `handleInit`). -/
def MCPServer.handleInit : Envelope :=
  .initResult ["0.1.0"] MCPServer.toolsPayload

/-- Python `handle_list_tools`. -/
def MCPServer.handle_list_tools : Envelope :=
  .listToolsResult MCPServer.toolsPayload

/-- Invocation of the handler instance bound to a registry key
(`tool.handler.execute(arguments)`), with each handler's state threaded
out of the server state. -/
def MCPServer.runHandler (w : World) (st : ServerState) (k : HKey) (arguments : Json) :
    PyResult ToolExecution × ServerState :=
  match k with
  | .time => (.ok (TimeToolHandler.execute w arguments), st)
  | .calcH => (.ok (CalcToolHandler.execute arguments), st)
  | .weather => (.ok (WeatherToolHandler.execute arguments), st)
  | .github_clone =>
    let r := GitHubCloneToolHandler.execute w st.tmpCtr st.github_clone arguments
    (r.1, { st with github_clone := r.2.1, tmpCtr := r.2.2 })
  | .github_list_files =>
    (.ok (GitHubListFilesToolHandler.execute w st.github_clone arguments), st)
  | .command => (.ok (CommandExecutionToolHandler.execute w arguments), st)
  | .code_analysis =>
    let r := CodeAnalysisToolHandler.execute w st.code_analysis arguments
    (r.1, { st with code_analysis := r.2 })
  | .autodeploy =>
    let r := AutoDeployToolHandler.execute w st.autodeploy arguments
    (r.1, { st with autodeploy := r.2 })
  | .ui_generator =>
    let r := UIGeneratorToolHandler.execute w st.ui_generator st.ui_processes st.uiCtr arguments
    (r.1, { st with ui_processes := r.2.1, uiCtr := r.2.2 })

/-- Python `handle_execute_tool`: registry lookup, handler invocation
with its exception caught into an error envelope, and the github-clone
fan-out on any non-raising clone-tool call. -/
def MCPServer.handle_execute_tool (w : World) (st : ServerState) (tool_name arguments : Json) :
    Envelope × ServerState :=
  match mcpTools.find? (fun t => tool_name.eqStr t.name) with
  | none => (.error (s!"Tool {apos}{pyStr tool_name}{apos} not found"), st)
  | some t =>
    match MCPServer.runHandler w st t.handler arguments with
    | (.ok result, st1) =>
      let st2 := if tool_name.eqStr "github_clone" then MCPServer.share_repo_info st1 else st1
      (.executeToolResult result.content, st2)
    | (.exc e, st1) => (.error s!"Error executing tool: {e}", st1)

/-- HTTP GET /initialize route: always 200 with the dispatcher payload. -/
def MCPServer.http_init_route : Nat × Envelope := (200, MCPServer.handleInit)

/-- HTTP GET /list_tools route: always 200 with the dispatcher payload. -/
def MCPServer.http_list_tools : Nat × Envelope := (200, MCPServer.handle_list_tools)

/-- Body of a POST /execute_tool request as seen after `request.json()`:
either the parse raised `json.JSONDecodeError`, or a JSON value.  For a
valid-JSON body that is not an object, CPython would raise
`AttributeError` at `data.get`, which the route does not catch (aiohttp
turns it into a 500); the claims under study quantify over object
bodies, where the total `Json.get` agrees with the source. -/
inductive HttpBody where
  | invalid
  | body (data : Json)

/-- Python `http_execute_tool`: 400 for a malformed body, 400 when the
`name` field is missing or falsy, otherwise 200 carrying the dispatcher's
envelope (success or error alike). -/
def MCPServer.http_execute_tool (w : World) (st : ServerState) (b : HttpBody) :
    (Nat × Envelope) × ServerState :=
  match b with
  | .invalid => ((400, .error "Invalid JSON in request body"), st)
  | .body data =>
    let tool_name := data.get "name" .null
    let arguments := data.get "arguments" (.obj [])
    if !tool_name.truthy then ((400, .error "Tool name not provided"), st)
    else
      let r := MCPServer.handle_execute_tool w st tool_name arguments
      ((200, r.1), r.2)

/-- One line read by the stdio loop, as seen after `json.loads`: either
the parse raised (with the exception detail) or a JSON value. -/
inductive StdioLine where
  | malformed (detail : String)
  | request (req : Json)

/-- One iteration body of `start_stdio_server`: the response line written
for one input line, together with the updated server state.  A
valid-JSON line that is not an object raises `AttributeError` at
`request.get`, which the loop's catch-all turns into a `Server error`
line. -/
def MCPServer.stdioRespond (w : World) (st : ServerState) (l : StdioLine) :
    Envelope × ServerState :=
  match l with
  | .malformed detail => (.error s!"Invalid JSON: {detail}", st)
  | .request req =>
    match req with
    | .obj _ =>
      let t := req.get "type" .null
      if t.eqStr "initialize" then (MCPServer.handleInit, st)
      else if t.eqStr "list_tools" then (MCPServer.handle_list_tools, st)
      else if t.eqStr "execute_tool" then
        MCPServer.handle_execute_tool w st (req.get "name" .null) (req.get "arguments" (.obj []))
      else (.error s!"Unknown request type: {pyStr t}", st)
    | _ => (.error ("Server error: object has no attribute " ++ apos ++ "get" ++ apos), st)

/-- The stdio read loop: one response line per input line, state threaded
through; the loop ends at end of input (empty read). -/
def MCPServer.stdioLoop (w : World) (st : ServerState) : List StdioLine → List Envelope
  | [] => []
  | l :: rest =>
    let r := MCPServer.stdioRespond w st l
    r.1 :: MCPServer.stdioLoop w r.2 rest

/-- Server state after the stdio loop has consumed a list of lines. -/
def MCPServer.stdioStateAfter (w : World) (st : ServerState) (ls : List StdioLine) : ServerState :=
  ls.foldl (fun s l => (MCPServer.stdioRespond w s l).2) st

/-!
## Concrete worlds and helper lemmas

`wOk` is a benign world (paths exist, subprocesses succeed quietly,
spawned processes stay alive); `wCloneFail` is `wOk` with `git clone`
failing.  They instantiate the theorems below on concrete runs.
-/

/-- Concrete world where everything succeeds. -/
def wOk : World :=
  { now := "2025-01-01 00:00:00",
    pathExists := fun _ => true,
    fdExists := fun _ => true,
    isFile := fun _ => true,
    isDir := fun _ => false,
    accessExec := fun _ => true,
    listdir := fun _ => [],
    walk := fun _ => [],
    readFile := fun _ => "",
    readJson := fun _ => .ok (.obj []),
    fileSize := fun _ => 0,
    run := fun _ _ => some (0, "", ""),
    shell := fun _ _ => (0, "", ""),
    commandShell := fun _ _ _ => .done 0 "" "",
    mkdtemp := fun n => s!"/tmp/tmp{n}",
    epochTime := 1700000000,
    uuidHex := fun n => s!"cafe000{n}",
    freePort := fun _ => 8501,
    spawnDies := fun _ => none }

/-- Concrete world where `git clone` fails with a captured stderr and
every other subprocess succeeds. -/
def wCloneFail : World := { wOk with
  run := fun _ argv => match argv with
    | "git" :: "clone" :: _ => some (128, "", "fatal: repository not found")
    | _ => some (0, "", "") }

/-- Tools-list extractor from a response envelope. -/
def Envelope.toolsOf : Envelope → List ToolDescriptor
  | .initResult _ ts => ts
  | .listToolsResult ts => ts
  | _ => []

@[simp] theorem adLog_history (st : ADState) (s : String) : (adLog st s).history = st.history := rfl

@[simp] theorem adLog_repo_path (st : ADState) (s : String) : (adLog st s).repo_path = st.repo_path := rfl

@[simp] theorem adLog_repo_name (st : ADState) (s : String) : (adLog st s).repo_name = st.repo_name := rfl

@[simp] theorem adLog_repo_url (st : ADState) (s : String) : (adLog st s).repo_url = st.repo_url := rfl

@[simp] theorem adLog_deploy_config (st : ADState) (s : String) : (adLog st s).deploy_config = st.deploy_config := rfl

theorem adLog_current (st : ADState) (s : String) :
    (adLog st s).current_deployment
      = st.current_deployment.map (fun r => { r with log := r.log ++ [s] }) := rfl

@[simp] theorem adSetStatus_history (st : ADState) (x : DeployStatus) : (adSetStatus st x).history = st.history := rfl

theorem adSetStatus_current (st : ADState) (x : DeployStatus) :
    (adSetStatus st x).current_deployment
      = st.current_deployment.map (fun r => { r with status := x }) := rfl

/-- Frame property of the deploy routines: everything except the current
record's log is preserved (the log is only appended to). -/
def RoutineFrame (st st2 : ADState) : Prop :=
  st2.repo_path = st.repo_path ∧ st2.repo_name = st.repo_name ∧ st2.repo_url = st.repo_url
    ∧ st2.deploy_config = st.deploy_config ∧ st2.history = st.history
    ∧ ∃ ext, st2.current_deployment
        = st.current_deployment.map (fun r => { r with log := r.log ++ ext })

theorem RoutineFrame.refl (st : ADState) : RoutineFrame st st := by
  refine ⟨rfl, rfl, rfl, rfl, rfl, [], ?_⟩
  cases st.current_deployment <;> simp

theorem RoutineFrame.step {st st2 : ADState} (h : RoutineFrame st st2) (s : String) :
    RoutineFrame st (adLog st2 s) := by
  obtain ⟨h1, h2, h3, h4, h5, ext, h6⟩ := h
  refine ⟨h1, h2, h3, h4, h5, ext ++ [s], ?_⟩
  rw [adLog_current, h6]
  cases st.current_deployment <;> simp

theorem RoutineFrame.trans {a b c : ADState} (h : RoutineFrame a b) (h2 : RoutineFrame b c) :
    RoutineFrame a c := by
  obtain ⟨x1, x2, x3, x4, x5, e1, x6⟩ := h
  obtain ⟨y1, y2, y3, y4, y5, e2, y6⟩ := h2
  refine ⟨y1.trans x1, y2.trans x2, y3.trans x3, y4.trans x4, y5.trans x5, e1 ++ e2, ?_⟩
  rw [y6, x6]
  cases a.current_deployment <;> simp

theorem RoutineFrame.step_ite {st st2 : ADState} (h : RoutineFrame st st2) (c : Bool)
    (s : String) : RoutineFrame st (if c then adLog st2 s else st2) := by
  cases c <;> simp only [if_true, if_false, Bool.false_eq_true, ite_false, ite_true]
  · exact h
  · exact h.step s

theorem deploy_static_rest_frame (w : World) (st : ADState) (config bd dt : Json) :
    RoutineFrame st (AutoDeployToolHandler.deploy_static_rest w st config bd dt).2 := by
  unfold AutoDeployToolHandler.deploy_static_rest
  dsimp only
  split
  · exact RoutineFrame.refl st
  · exact ((RoutineFrame.refl st).step _).step _

theorem deploy_static_frame (w : World) (st : ADState) (config : Json) :
    RoutineFrame st (AutoDeployToolHandler.deploy_static w st config).2 := by
  unfold AutoDeployToolHandler.deploy_static
  dsimp only
  split
  · split
    · exact (((RoutineFrame.refl st).step _).step_ite _ _).step_ite _ _
    · exact ((((RoutineFrame.refl st).step _).step_ite _ _).step_ite _ _).trans
        (deploy_static_rest_frame w _ config _ _)
  · exact (RoutineFrame.refl st).trans (deploy_static_rest_frame w st config _ _)

theorem deploy_docker_frame (w : World) (st : ADState) (config : Json) :
    RoutineFrame st (AutoDeployToolHandler.deploy_docker w st config).2 := by
  unfold AutoDeployToolHandler.deploy_docker
  dsimp only
  split
  · exact ((((RoutineFrame.refl st).step _).step _).step_ite _ _).step_ite _ _
  · exact (((((RoutineFrame.refl st).step _).step _).step_ite _ _).step_ite _ _).step _

theorem heroku_rest_frame (w : World) (st : ADState) (app_name : Json) (cwd : String) :
    RoutineFrame st (AutoDeployToolHandler.heroku_rest w st app_name cwd).2 := by
  unfold AutoDeployToolHandler.heroku_rest
  dsimp only
  repeat' split
  all_goals first
    | exact RoutineFrame.refl st
    | exact (RoutineFrame.refl st).step _
    | exact ((RoutineFrame.refl st).step _).step _
    | exact (((RoutineFrame.refl st).step _).step _).step _

theorem deploy_heroku_frame (w : World) (st : ADState) (config : Json) :
    RoutineFrame st (AutoDeployToolHandler.deploy_heroku w st config).2 := by
  unfold AutoDeployToolHandler.deploy_heroku
  dsimp only
  repeat' split
  all_goals first
    | exact RoutineFrame.refl st
    | exact (RoutineFrame.refl st).step _
    | exact ((RoutineFrame.refl st).step _).step _
    | exact (((RoutineFrame.refl st).step _).step _).step _
    | exact ((((RoutineFrame.refl st).step _).step _).step _).step _
    | exact ((RoutineFrame.refl st).step _).trans (heroku_rest_frame w _ _ _)
    | exact (((RoutineFrame.refl st).step _).step _).trans (heroku_rest_frame w _ _ _)
    | exact ((((RoutineFrame.refl st).step _).step _).step _).trans (heroku_rest_frame w _ _ _)
    | exact (((((RoutineFrame.refl st).step _).step _).step _).step _).trans (heroku_rest_frame w _ _ _)

theorem deploy_custom_frame (w : World) (st : ADState) (config : Json) :
    RoutineFrame st (AutoDeployToolHandler.deploy_custom w st config).2 := by
  unfold AutoDeployToolHandler.deploy_custom
  dsimp only
  split
  · exact RoutineFrame.refl st
  · exact (((RoutineFrame.refl st).step _).step _).step _

theorem routine_frame (w : World) (st : ADState) (dt cfg : Json)
    (p : DeployResult × ADState) (h : AutoDeployToolHandler.routine w st dt cfg = some p) :
    RoutineFrame st p.2 := by
  unfold AutoDeployToolHandler.routine at h
  split at h
  · cases h; exact deploy_static_frame w st cfg
  · split at h
    · cases h; exact deploy_docker_frame w st cfg
    · split at h
      · cases h; exact deploy_heroku_frame w st cfg
      · split at h
        · cases h; exact deploy_custom_frame w st cfg
        · cases h

/-- One-step property of the autodeploy state: the history is unchanged
or extended by exactly one record, and whenever a record stops being
current with the slot left empty, its archived version (same type and
config, terminal status) was the appended one. -/
def ADStep (st st2 : ADState) : Prop :=
  (st2.history = st.history ∨ ∃ r, st2.history = st.history ++ [r])
    ∧ ∀ r, st.current_deployment = some r → st2.current_deployment = none →
        ∃ r2, st2.history = st.history ++ [r2] ∧ r2.dtype = r.dtype ∧ r2.config = r.config
          ∧ (r2.status = DeployStatus.completed ∨ r2.status = DeployStatus.aborted)

theorem ADStep_hc {st st2 : ADState} (h1 : st2.history = st.history)
    (h2 : st2.current_deployment = st.current_deployment
      ∨ ∃ rec, st2.current_deployment = some rec) : ADStep st st2 := by
  refine ⟨Or.inl h1, fun r hr hn => ?_⟩
  rcases h2 with h2 | ⟨rec, h2⟩
  · rw [h2, hr] at hn; cases hn
  · rw [h2] at hn; cases hn

theorem ADStep_congr {st t x : ADState} (h1 : st.history = t.history)
    (h2 : st.current_deployment = t.current_deployment) (h : ADStep t x) : ADStep st x := by
  obtain ⟨ha, hb⟩ := h
  constructor
  · rw [h1]; exact ha
  · intro r hr hn
    rw [h1]
    exact hb r (h2 ▸ hr) hn

theorem prep_static_step (w : World) (st : ADState) (cfg : Json) :
    ADStep st (AutoDeployToolHandler.prep_static w st cfg).2 := by
  unfold AutoDeployToolHandler.prep_static AutoDeployToolHandler.prep_finish
  dsimp only
  repeat' split
  all_goals first
    | exact ADStep_hc rfl (Or.inl rfl)
    | exact ADStep_hc rfl (Or.inr ⟨_, rfl⟩)

theorem prep_docker_step (w : World) (st : ADState) (cfg : Json) :
    ADStep st (AutoDeployToolHandler.prep_docker w st cfg).2 := by
  unfold AutoDeployToolHandler.prep_docker AutoDeployToolHandler.prep_finish
  dsimp only
  repeat' split
  all_goals first
    | exact ADStep_hc rfl (Or.inl rfl)
    | exact ADStep_hc rfl (Or.inr ⟨_, rfl⟩)

theorem prep_heroku_step (w : World) (st : ADState) (cfg : Json) :
    ADStep st (AutoDeployToolHandler.prep_heroku w st cfg).2 := by
  unfold AutoDeployToolHandler.prep_heroku AutoDeployToolHandler.prep_finish
  dsimp only
  repeat' split
  all_goals first
    | exact ADStep_hc rfl (Or.inl rfl)
    | exact ADStep_hc rfl (Or.inr ⟨_, rfl⟩)

theorem prep_custom_step (w : World) (st : ADState) (cfg : Json) :
    ADStep st (AutoDeployToolHandler.prep_custom w st cfg).2 := by
  unfold AutoDeployToolHandler.prep_custom AutoDeployToolHandler.prep_finish
  dsimp only
  repeat' split
  all_goals first
    | exact ADStep_hc rfl (Or.inl rfl)
    | exact ADStep_hc rfl (Or.inr ⟨_, rfl⟩)

theorem prep_step (w : World) (st : ADState) (cfg : Json) :
    ADStep st (AutoDeployToolHandler.prepare_deployment w st cfg).2 := by
  unfold AutoDeployToolHandler.prepare_deployment
  dsimp only
  repeat' split
  all_goals first
    | exact ADStep_hc rfl (Or.inl rfl)
    | exact ADStep_congr rfl rfl (prep_static_step w _ cfg)
    | exact ADStep_congr rfl rfl (prep_docker_step w _ cfg)
    | exact ADStep_congr rfl rfl (prep_heroku_step w _ cfg)
    | exact ADStep_congr rfl rfl (prep_custom_step w _ cfg)

theorem prep_static_repo_path (w : World) (st : ADState) (cfg : Json) :
    (AutoDeployToolHandler.prep_static w st cfg).2.repo_path = st.repo_path := by
  unfold AutoDeployToolHandler.prep_static AutoDeployToolHandler.prep_finish
  dsimp only
  repeat' split
  all_goals rfl

theorem prep_docker_repo_path (w : World) (st : ADState) (cfg : Json) :
    (AutoDeployToolHandler.prep_docker w st cfg).2.repo_path = st.repo_path := by
  unfold AutoDeployToolHandler.prep_docker AutoDeployToolHandler.prep_finish
  dsimp only
  repeat' split
  all_goals rfl

theorem prep_heroku_repo_path (w : World) (st : ADState) (cfg : Json) :
    (AutoDeployToolHandler.prep_heroku w st cfg).2.repo_path = st.repo_path := by
  unfold AutoDeployToolHandler.prep_heroku AutoDeployToolHandler.prep_finish
  dsimp only
  repeat' split
  all_goals rfl

theorem prep_custom_repo_path (w : World) (st : ADState) (cfg : Json) :
    (AutoDeployToolHandler.prep_custom w st cfg).2.repo_path = st.repo_path := by
  unfold AutoDeployToolHandler.prep_custom AutoDeployToolHandler.prep_finish
  dsimp only
  repeat' split
  all_goals rfl

theorem prep_repo_path (w : World) (st : ADState) (cfg : Json) :
    (AutoDeployToolHandler.prepare_deployment w st cfg).2.repo_path = st.repo_path := by
  unfold AutoDeployToolHandler.prepare_deployment
  dsimp only
  repeat' split
  all_goals first
    | rfl
    | exact prep_static_repo_path w _ cfg
    | exact prep_docker_repo_path w _ cfg
    | exact prep_heroku_repo_path w _ cfg
    | exact prep_custom_repo_path w _ cfg

theorem abort_step (st : ADState) :
    ADStep st (AutoDeployToolHandler.abort_deployment st).2 := by
  unfold AutoDeployToolHandler.abort_deployment
  dsimp only
  split
  case _ hnone =>
    exact ADStep_hc rfl (Or.inl rfl)
  case _ cur hcur =>
    split
    · exact ADStep_hc rfl (Or.inl rfl)
    · refine ⟨?_, ?_⟩
      · refine Or.inr ⟨{ cur with status := .aborted, log := cur.log ++ ["Deployment aborted by user"] }, ?_⟩
        simp [adLog, adSetStatus, hcur]
      · intro r hr _
        rw [hcur] at hr
        cases hr
        refine ⟨{ cur with status := .aborted, log := cur.log ++ ["Deployment aborted by user"] }, ?_, rfl, rfl, Or.inr rfl⟩
        simp [adLog, adSetStatus, hcur]

theorem abort_repo_path (st : ADState) :
    (AutoDeployToolHandler.abort_deployment st).2.repo_path = st.repo_path := by
  unfold AutoDeployToolHandler.abort_deployment
  dsimp only
  repeat' split
  all_goals rfl

theorem start_step (w : World) (st : ADState) :
    ADStep st (AutoDeployToolHandler.start_deployment w st).2 := by
  unfold AutoDeployToolHandler.start_deployment
  dsimp only
  split
  · exact ADStep_hc rfl (Or.inl rfl)
  · split
    case _ hnone => exact ADStep_hc rfl (Or.inl rfl)
    case _ cur hcur =>
      split
      · exact ADStep_hc rfl (Or.inl rfl)
      · split
        case _ res heq =>
          have hf := routine_frame w _ cur.dtype cur.config res heq
          obtain ⟨h1, h2, h3, h4, h5, ext, h6⟩ := hf
          split
          · -- success: record archived as completed
            have hcur3 : (adLog (adSetStatus res.2 .completed) "Deployment completed successfully").current_deployment
                = some (DeploymentRecord.mk DeployStatus.completed cur.dtype cur.config
                    (((cur.log ++ ["Starting deployment..."]) ++ ext)
                      ++ ["Deployment completed successfully"])) := by
              rw [adLog_current, adSetStatus_current, h6]
              simp
            have hhist3 : (adLog (adSetStatus res.2 .completed) "Deployment completed successfully").history
                ++ (adLog (adSetStatus res.2 .completed) "Deployment completed successfully").current_deployment.toList
                = st.history ++ [DeploymentRecord.mk DeployStatus.completed cur.dtype cur.config
                    (((cur.log ++ ["Starting deployment..."]) ++ ext)
                      ++ ["Deployment completed successfully"])] := by
              rw [hcur3]
              simp [h5]
            constructor
            · right
              dsimp only
              exact ⟨_, hhist3⟩
            · intro r hr _
              rw [hcur] at hr
              cases hr
              dsimp only
              exact ⟨_, hhist3, rfl, rfl, Or.inl rfl⟩
          · -- failure: record stays current as failed
            apply ADStep_hc
            · dsimp only
              simp [h5]
            · right
              dsimp only
              rw [adLog_current, adSetStatus_current, h6]
              dsimp only
              exact ⟨_, rfl⟩
        case _ heq =>
          apply ADStep_hc
          · rfl
          · right
            dsimp only
            rw [adLog_current, adSetStatus_current]
            dsimp only
            exact ⟨_, rfl⟩

theorem start_repo_path (w : World) (st : ADState) :
    (AutoDeployToolHandler.start_deployment w st).2.repo_path = st.repo_path := by
  unfold AutoDeployToolHandler.start_deployment
  dsimp only
  split
  · rfl
  · split
    case _ hnone => rfl
    case _ cur hcur =>
      split
      · rfl
      · split
        case _ res heq =>
          have hf := routine_frame w _ cur.dtype cur.config res heq
          obtain ⟨h1, -, -, -, -, -, -⟩ := hf
          split
          · simpa using h1
          · simpa using h1
        case _ heq => rfl

theorem autodeploy_step (w : World) (st : ADState) (params : Json) :
    ADStep st (AutoDeployToolHandler.execute w st params).2 := by
  unfold AutoDeployToolHandler.execute
  dsimp only
  repeat' split
  all_goals first
    | exact ADStep_hc rfl (Or.inl rfl)
    | exact ADStep_congr rfl rfl (prep_step w _ _)
    | exact ADStep_congr rfl rfl (start_step w _)
    | exact ADStep_congr rfl rfl (abort_step _)

/-- A sequence of autodeploy `execute` calls, folded over the handler
state (the trace semantics the invariant claims quantify over). -/
def adRun (w : World) (st : ADState) (pss : List Json) : ADState :=
  pss.foldl (fun s p => (AutoDeployToolHandler.execute w s p).2) st

theorem adRun_take_succ (w : World) (st0 : ADState) (pss : List Json) (k : Nat)
    (hk : k < pss.length) :
    adRun w st0 (pss.take (k + 1))
      = (AutoDeployToolHandler.execute w (adRun w st0 (pss.take k)) pss[k]).2 := by
  unfold adRun
  rw [List.take_succ, List.getElem?_eq_getElem hk]
  rw [List.foldl_append]
  rfl

/-- Lemma for the history rendering: appending a record keeps it within
the last-five slice shown by `get_status`. -/
theorem lastN_append_one {α : Type} (n : Nat) (hn : 0 < n) (xs : List α) (x : α) :
    lastN n (xs ++ [x]) = lastN (n - 1) xs ++ [x] := by
  unfold lastN
  rw [List.length_append]
  simp only [List.length_singleton]
  have harg : xs.length + 1 - n = xs.length - (n - 1) := by omega
  rw [harg, List.drop_append_of_le_length (Nat.sub_le _ _)]

/-- The archived record's status line occurs in the rendered history
section. -/
theorem status_line_mem (hist : List DeploymentRecord) (r : DeploymentRecord) :
    s!"  - Status: {r.status.render}" ∈ adHistoryBlock (hist ++ [r]) := by
  unfold adHistoryBlock
  have hne : (hist ++ [r]).isEmpty = false := by simp
  rw [hne]
  simp only [Bool.false_eq_true, if_false]
  refine List.mem_cons.mpr (Or.inr (List.mem_append.mpr (Or.inl ?_)))
  rw [lastN_append_one 5 (by omega) hist r]
  rw [List.enum_append]
  rw [List.flatMap_append]
  refine List.mem_append.mpr (Or.inr ?_)
  simp [List.enumFrom]

/-- Custom-type deploy configuration used by the concrete runs below. -/
def cfgCustomA : Json := .obj [("type", .str "custom"), ("script_path", .str "a.sh")]

/-- A second, distinct custom-type deploy configuration. -/
def cfgCustomB : Json := .obj [("type", .str "custom"), ("script_path", .str "b.sh")]

/-- prepare_deployment call parameters for `cfgCustomA`. -/
def prepA : Json := .obj [("action", .str "prepare_deployment"), ("repo_path", .str "/repo"),
  ("deploy_config", cfgCustomA)]

/-- prepare_deployment call parameters for `cfgCustomB`. -/
def prepB : Json := .obj [("action", .str "prepare_deployment"), ("repo_path", .str "/repo"),
  ("deploy_config", cfgCustomB)]

/-- start_deployment call parameters. -/
def startP : Json := .obj [("action", .str "start_deployment"), ("repo_path", .str "/repo")]

/-- Record produced by a successful prepare of `cfgCustomA`. -/
def recA : DeploymentRecord :=
  ⟨.prepared, .str "custom", cfgCustomA, ["Deployment preparation complete"]⟩

/-- Handler state right after a successful prepare of `cfgCustomA`. -/
def stC4 : ADState :=
  { repo_path := .str "/repo", repo_name := .null, repo_url := .null,
    deploy_config := cfgCustomA, current_deployment := some recA, history := [] }

/-- C1 (counterexample): after `prepare_deployment(cfgCustomA)` a record
for `cfgCustomA` is current; a second `prepare_deployment(cfgCustomB)`
replaces it with a record for `cfgCustomB` while the history stays empty,
so the replaced record was *not* appended to history — refuting the
claim that every record that stops being current (including by being
replaced by a new prepare_deployment) is appended to the history list. -/
theorem C1_counterexample :
    (adRun wOk ADState.init [prepA]).current_deployment = some recA
    ∧ (adRun wOk ADState.init [prepA, prepB]).current_deployment
        = some ⟨.prepared, .str "custom", cfgCustomB, ["Deployment preparation complete"]⟩
    ∧ (adRun wOk ADState.init [prepA, prepB]).history = []
    ∧ recA ≠ ⟨.prepared, .str "custom", cfgCustomB, ["Deployment preparation complete"]⟩ := by
  refine ⟨rfl, rfl, rfl, ?_⟩
  intro h
  have : cfgCustomA = cfgCustomB := congrArg DeploymentRecord.config h
  simp [cfgCustomA, cfgCustomB] at this

/-- C1 (amended): along every sequence of autodeploy operations, at most
one deployment record is current at any time, and at each step the
history list is append-only — left unchanged or extended by exactly one
record, never mutated — and a record that stops being current with the
current slot left empty (completing or aborting) is the one appended,
with terminal status `completed` or `aborted`.  (A record replaced by a
new `prepare_deployment` is discarded without being archived, which is
the one divergence from the original claim.) -/
theorem C1_theorem (w : World) (st0 : ADState) (pss : List Json) (k : Nat)
    (hk : k < pss.length) :
    (adRun w st0 (pss.take (k + 1))).current_deployment.toList.length ≤ 1
    ∧ ((adRun w st0 (pss.take (k + 1))).history = (adRun w st0 (pss.take k)).history
        ∨ ∃ r, (adRun w st0 (pss.take (k + 1))).history
            = (adRun w st0 (pss.take k)).history ++ [r])
    ∧ ∀ r, (adRun w st0 (pss.take k)).current_deployment = some r →
        (adRun w st0 (pss.take (k + 1))).current_deployment = none →
        ∃ r2, (adRun w st0 (pss.take (k + 1))).history
            = (adRun w st0 (pss.take k)).history ++ [r2]
          ∧ r2.dtype = r.dtype ∧ r2.config = r.config
          ∧ (r2.status = DeployStatus.completed ∨ r2.status = DeployStatus.aborted) := by
  rw [adRun_take_succ w st0 pss k hk]
  obtain ⟨h1, h2⟩ := autodeploy_step w (adRun w st0 (pss.take k)) pss[k]
  refine ⟨?_, h1, h2⟩
  cases (AutoDeployToolHandler.execute w (adRun w st0 (pss.take k)) pss[k]).2.current_deployment <;> simp

/-- C1 (witness): the amended theorem applied to the concrete
prepare-then-start run, at the step where the record leaves the current
slot by completing; the archived record is exhibited by the theorem. -/
theorem C1_witness :
    (1 < ([prepA, startP] : List Json).length)
    ∧ ((adRun wOk ADState.init ([prepA, startP].take 1)).current_deployment = some recA)
    ∧ ((adRun wOk ADState.init ([prepA, startP].take 2)).current_deployment = none)
    ∧ (∃ r2, (adRun wOk ADState.init ([prepA, startP].take 2)).history
          = (adRun wOk ADState.init ([prepA, startP].take 1)).history ++ [r2]
        ∧ r2.dtype = recA.dtype ∧ r2.config = recA.config
        ∧ (r2.status = DeployStatus.completed ∨ r2.status = DeployStatus.aborted)) :=
  ⟨by decide, rfl, rfl,
    (C1_theorem wOk ADState.init [prepA, startP] 1 (by decide)).2.2 recA rfl rfl⟩

/-- C2 (code bug): the claim that the autodeploy handler's `execute`
returns an error string and never raises for every action when
`repo_path` is absent is right about the intent — line 30's guard
explicitly exempts `get_status`/`abort_deployment` from needing a path,
and the module's own `__main__` smoke test calls both without one — but
line 33 evaluates `os.path.exists(self.repo_path)` *before* those
exemptions, so with `repo_path` absent (`None`) the call raises
`TypeError` out of `execute` for exactly those two actions, in every
handler state and world. -/
theorem C2_theorem (w : World) (st : ADState) :
    (AutoDeployToolHandler.execute w st (.obj [("action", .str "get_status")])).1
      = .exc "TypeError: stat: path should be string, bytes, os.PathLike or integer, not NoneType"
    ∧ (AutoDeployToolHandler.execute w st (.obj [("action", .str "abort_deployment")])).1
      = .exc "TypeError: stat: path should be string, bytes, os.PathLike or integer, not NoneType" :=
  ⟨rfl, rfl⟩

/-- C10: every call to the autodeploy handler's `execute` — for every
action, including `get_status` and `abort_deployment`, and on every path
including the raising one — overwrites the handler's stored `repo_path`
with the call's `repo_path` parameter (`None` when absent), so a
`get_status` call without `repo_path` erases a previously established
path rather than leaving the handler state unchanged. -/
theorem C10_theorem (w : World) (st : ADState) (params : Json) :
    (AutoDeployToolHandler.execute w st params).2.repo_path
      = params.get "repo_path" .null := by
  unfold AutoDeployToolHandler.execute
  dsimp only
  repeat' split
  all_goals first
    | rfl
    | exact prep_repo_path w _ _
    | exact start_repo_path w _
    | exact abort_repo_path _

/-- C4: when a deployment has been prepared (a saved config and a
current record in `prepared` state) and the type-specific deploy routine
dispatched by `_start_deployment` reports success, `start_deployment`
archives the record to history with status `completed`, clears the
current slot, and a following `get_status` renders only the
"Deployment Status:" header and the history section — the current
section is absent and the archived record's `completed` status line is
shown. -/
theorem C4_theorem (w : World) (st : ADState) (rec : DeploymentRecord)
    (hcfg : st.deploy_config.truthy = true)
    (hcur : st.current_deployment = some rec)
    (hst : rec.status = DeployStatus.prepared)
    (res : DeployResult × ADState)
    (hrout : AutoDeployToolHandler.routine w
        { st with current_deployment := some { rec with status := DeployStatus.in_progress, log := rec.log ++ ["Starting deployment..."] } }
        rec.dtype rec.config = some res)
    (hsucc : res.1.success = true) :
    (AutoDeployToolHandler.start_deployment w st).2.current_deployment = none
    ∧ (∃ r2, (AutoDeployToolHandler.start_deployment w st).2.history = st.history ++ [r2]
        ∧ r2.status = DeployStatus.completed ∧ r2.dtype = rec.dtype ∧ r2.config = rec.config)
    ∧ (AutoDeployToolHandler.get_deployment_status
        (AutoDeployToolHandler.start_deployment w st).2).content
      = "\n".intercalate ("Deployment Status:"
          :: adHistoryBlock (AutoDeployToolHandler.start_deployment w st).2.history)
    ∧ "  - Status: completed"
        ∈ adHistoryBlock (AutoDeployToolHandler.start_deployment w st).2.history := by
  obtain ⟨f1, f2, f3, f4, f5, ext, f6⟩ :=
    routine_frame w _ rec.dtype rec.config res hrout
  have hstart : AutoDeployToolHandler.start_deployment w st
      = ((⟨"Deployment successful!\n\n" ++ res.1.message ++ ""⟩ : ToolExecution),
        { adLog (adSetStatus res.2 .completed) "Deployment completed successfully" with
            history := (adLog (adSetStatus res.2 .completed) "Deployment completed successfully").history
              ++ (adLog (adSetStatus res.2 .completed) "Deployment completed successfully").current_deployment.toList,
            current_deployment := none }) := by
    unfold AutoDeployToolHandler.start_deployment
    rw [hcur]
    simp only [hcfg, hst, Bool.not_true, Bool.false_eq_true, if_false, bne_self_eq_false]
    rw [hrout]
    simp only [hsucc, if_true]
    rfl
  have hcur3 : (adLog (adSetStatus res.2 .completed) "Deployment completed successfully").current_deployment
      = some (DeploymentRecord.mk DeployStatus.completed rec.dtype rec.config
          (((rec.log ++ ["Starting deployment..."]) ++ ext)
            ++ ["Deployment completed successfully"])) := by
    rw [adLog_current, adSetStatus_current, f6]
    simp
  have hh : (AutoDeployToolHandler.start_deployment w st).2.history
      = st.history ++ [DeploymentRecord.mk DeployStatus.completed rec.dtype rec.config
          (((rec.log ++ ["Starting deployment..."]) ++ ext)
            ++ ["Deployment completed successfully"])] := by
    rw [hstart]
    dsimp only
    rw [hcur3]
    simp [f5]
  have hcn : (AutoDeployToolHandler.start_deployment w st).2.current_deployment = none := by
    rw [hstart]
  refine ⟨hcn, ⟨_, hh, rfl, rfl, rfl⟩, ?_, ?_⟩
  · unfold AutoDeployToolHandler.get_deployment_status
    rw [hcn, hh]
    simp [adCurrentBlock]
  · rw [hh]
    exact status_line_mem st.history _

/-- C4 (witness): the theorem applied to the concrete prepared state for
the custom-type configuration under the benign world. -/
theorem C4_witness :
    (AutoDeployToolHandler.start_deployment wOk stC4).2.current_deployment = none
    ∧ (∃ r2, (AutoDeployToolHandler.start_deployment wOk stC4).2.history = stC4.history ++ [r2]
        ∧ r2.status = DeployStatus.completed ∧ r2.dtype = recA.dtype ∧ r2.config = recA.config)
    ∧ (AutoDeployToolHandler.get_deployment_status
        (AutoDeployToolHandler.start_deployment wOk stC4).2).content
      = "\n".intercalate ("Deployment Status:"
          :: adHistoryBlock (AutoDeployToolHandler.start_deployment wOk stC4).2.history)
    ∧ "  - Status: completed"
        ∈ adHistoryBlock (AutoDeployToolHandler.start_deployment wOk stC4).2.history :=
  C4_theorem wOk stC4 recA rfl rfl rfl _ rfl rfl

/-- C8: the calculate tool returns content `"8"` for `add(5,3)` and
`"Division by zero error"` for `divide(10,0)`; the embedded `execute` is
a total function into `ToolExecution` (the source wraps `eval` in a
catch-all returning error strings), so neither call raises. -/
theorem C8_theorem :
    CalcToolHandler.execute (.obj [("expression", .str "add(5,3)")]) = ⟨"8"⟩
    ∧ CalcToolHandler.execute (.obj [("expression", .str "divide(10,0)")])
        = ⟨"Division by zero error"⟩ :=
  ⟨by decide, by decide⟩

/-- C9: for the fixed registry, the descriptor list carried by the HTTP
GET /list_tools response equals — element for element, in order — the
one carried by the stdio `list_tools` response, in every server state
and world (both adapters call the same `handle_list_tools`). -/
theorem C9_theorem (w : World) (st : ServerState) :
    (MCPServer.stdioRespond w st (.request (.obj [("type", .str "list_tools")]))).1.toolsOf
      = MCPServer.http_list_tools.2.toolsOf :=
  rfl

/-- C5: for every tool name outside the registry and every argument map,
the dispatcher returns the `Tool '<name>' not found` error envelope with
the requested name interpolated, leaves the server state unchanged, and
— being a total function into an envelope/state pair whose error branch
precedes any handler call — never raises. -/
theorem C5_theorem (w : World) (st : ServerState) (name : String) (args : Json)
    (h : name ∉ mcpTools.map Tool.name) :
    MCPServer.handle_execute_tool w st (.str name) args
      = (.error s!"Tool {apos}{name}{apos} not found", st) := by
  unfold MCPServer.handle_execute_tool
  have hfind : mcpTools.find? (fun t => (Json.str name).eqStr t.name) = none := by
    rw [List.find?_eq_none]
    intro t ht
    simp only [Json.eqStr, beq_iff_eq]
    intro hEq
    exact h (List.mem_map.mpr ⟨t, ht, hEq.symm⟩)
  rw [hfind]
  rfl

/-- C5 (witness): the theorem at the name `nonexistent` with empty
arguments, initial state and the benign world. -/
theorem C5_witness :
    ("nonexistent" ∉ mcpTools.map Tool.name)
    ∧ MCPServer.handle_execute_tool wOk ServerState.init (.str "nonexistent") (.obj [])
        = (.error s!"Tool {apos}nonexistent{apos} not found", ServerState.init) :=
  ⟨by decide, C5_theorem wOk ServerState.init "nonexistent" (.obj []) (by decide)⟩

/-- Arguments of the concrete clone request used below. -/
def cloneArgs : Json := .obj [("repo_url", .str "https://github.com/u/r.git")]

/-- Repository context left by the failing concrete clone: the fresh
temp directory and the requested URL are installed before `git clone`
runs, so they survive its failure. -/
def cloneFailCtx : RepoCtx :=
  { repo_path := .str "/tmp/tmp0", repo_name := .str "r",
    repo_url := .str "https://github.com/u/r.git" }

/-- C3 (counterexample): under `wCloneFail` the clone fails — the
dispatcher returns the clone error string — yet the code-analysis
handler's repository context, `null` in the initial state, is changed to
the fresh temp directory: `share_repo_info` runs whenever the clone
handler returns (error string included), refuting the claim's
"when the clone fails, no other handler's repository context is
changed". -/
theorem C3_counterexample :
    (MCPServer.handle_execute_tool wCloneFail ServerState.init (.str "github_clone") cloneArgs).1
      = .executeToolResult "Error cloning repository: fatal: repository not found"
    ∧ ServerState.init.code_analysis.repo_path = Json.null
    ∧ (MCPServer.handle_execute_tool wCloneFail ServerState.init (.str "github_clone") cloneArgs).2.code_analysis.repo_path
      = .str "/tmp/tmp0" :=
  ⟨rfl, rfl, rfl⟩

/-- C3 (amended): for a `github_clone` request the dispatcher fans the
clone handler's `{repo_path, repo_name, repo_url}` out to every other
handler exactly when the clone handler *returns* (an `.ok` result —
whether a success message or a clone-failure error string); only when
the handler *raises* (missing `git` binary) are the other handlers'
contexts left unchanged. -/
theorem C3_theorem (w : World) (st : ServerState) (params : Json)
    (pr : PyResult ToolExecution) (ctx : RepoCtx) (ctr : Nat)
    (hE : GitHubCloneToolHandler.execute w st.tmpCtr st.github_clone params = (pr, ctx, ctr)) :
    (∀ res, pr = .ok res →
      (MCPServer.handle_execute_tool w st (.str "github_clone") params).1
          = .executeToolResult res.content
      ∧ ((MCPServer.handle_execute_tool w st (.str "github_clone") params).2.time = ctx
      ∧ (MCPServer.handle_execute_tool w st (.str "github_clone") params).2.calcH = ctx
      ∧ (MCPServer.handle_execute_tool w st (.str "github_clone") params).2.weather = ctx
      ∧ (MCPServer.handle_execute_tool w st (.str "github_clone") params).2.github_clone = ctx
      ∧ (MCPServer.handle_execute_tool w st (.str "github_clone") params).2.github_list_files = ctx
      ∧ (MCPServer.handle_execute_tool w st (.str "github_clone") params).2.command = ctx
      ∧ (MCPServer.handle_execute_tool w st (.str "github_clone") params).2.code_analysis = ctx
      ∧ (MCPServer.handle_execute_tool w st (.str "github_clone") params).2.ui_generator = ctx
      ∧ (MCPServer.handle_execute_tool w st (.str "github_clone") params).2.autodeploy.repo_path = ctx.repo_path
      ∧ (MCPServer.handle_execute_tool w st (.str "github_clone") params).2.autodeploy.repo_name = ctx.repo_name
      ∧ (MCPServer.handle_execute_tool w st (.str "github_clone") params).2.autodeploy.repo_url = ctx.repo_url))
    ∧ (∀ e, pr = .exc e →
      (MCPServer.handle_execute_tool w st (.str "github_clone") params).1
          = .error s!"Error executing tool: {e}"
      ∧ ((MCPServer.handle_execute_tool w st (.str "github_clone") params).2.time = st.time
      ∧ (MCPServer.handle_execute_tool w st (.str "github_clone") params).2.calcH = st.calcH
      ∧ (MCPServer.handle_execute_tool w st (.str "github_clone") params).2.weather = st.weather
      ∧ (MCPServer.handle_execute_tool w st (.str "github_clone") params).2.github_list_files = st.github_list_files
      ∧ (MCPServer.handle_execute_tool w st (.str "github_clone") params).2.command = st.command
      ∧ (MCPServer.handle_execute_tool w st (.str "github_clone") params).2.code_analysis = st.code_analysis
      ∧ (MCPServer.handle_execute_tool w st (.str "github_clone") params).2.autodeploy = st.autodeploy
      ∧ (MCPServer.handle_execute_tool w st (.str "github_clone") params).2.ui_generator = st.ui_generator)) := by
  have hfind : mcpTools.find? (fun t => (Json.str "github_clone").eqStr t.name)
      = some { name := "github_clone", description := "Clone a GitHub repository",
               inputSchema := objSchema
                 [("repo_url", strProp "URL of the GitHub repository to clone")] ["repo_url"],
               handler := HKey.github_clone } := rfl
  constructor
  · intro res hres
    subst hres
    have hkey : MCPServer.handle_execute_tool w st (.str "github_clone") params
        = (.executeToolResult res.content,
           MCPServer.share_repo_info { st with github_clone := ctx, tmpCtr := ctr }) := by
      unfold MCPServer.handle_execute_tool
      rw [hfind]
      dsimp only [MCPServer.runHandler]
      rw [hE]
      rfl
    rw [hkey]
    exact ⟨rfl, rfl, rfl, rfl, rfl, rfl, rfl, rfl, rfl, rfl, rfl, rfl⟩
  · intro e he
    subst he
    have hkey : MCPServer.handle_execute_tool w st (.str "github_clone") params
        = (.error s!"Error executing tool: {e}",
           { st with github_clone := ctx, tmpCtr := ctr }) := by
      unfold MCPServer.handle_execute_tool
      rw [hfind]
      dsimp only [MCPServer.runHandler]
      rw [hE]
    rw [hkey]
    exact ⟨rfl, rfl, rfl, rfl, rfl, rfl, rfl, rfl, rfl⟩

/-- C3 (witness): the amended theorem at the failing concrete clone —
the handler returns `.ok` with the error string, and the fan-out indeed
reaches the code-analysis handler. -/
theorem C3_witness :
    GitHubCloneToolHandler.execute wCloneFail ServerState.init.tmpCtr
        ServerState.init.github_clone cloneArgs
      = (.ok ⟨"Error cloning repository: fatal: repository not found"⟩, cloneFailCtx, 1)
    ∧ (MCPServer.handle_execute_tool wCloneFail ServerState.init (.str "github_clone") cloneArgs).2.code_analysis
      = cloneFailCtx :=
  ⟨rfl,
   ((C3_theorem wCloneFail ServerState.init cloneArgs
       (.ok ⟨"Error cloning repository: fatal: repository not found"⟩) cloneFailCtx 1 rfl).1
     ⟨"Error cloning repository: fatal: repository not found"⟩ rfl).2.2.2.2.2.2.2.1⟩

/-- C6 (counterexample): a body whose `name` field is *present* but the
empty string is still answered with HTTP 400 `Tool name not provided` —
the route tests `if not tool_name`, i.e. falsiness, not absence,
refuting the claim's "exactly when the body's name field is absent". -/
theorem C6_counterexample :
    (Json.obj [("name", .str "")]).hasKey "name" = true
    ∧ (MCPServer.http_execute_tool wOk ServerState.init (.body (.obj [("name", .str "")]))).1
        = (400, .error "Tool name not provided") :=
  ⟨rfl, rfl⟩

/-- C6 (amended): for a valid-JSON object body, the route returns
HTTP 400 `Tool name not provided` exactly when the body's `name` value
is *falsy* (absent, `null`, empty string, `0`, `false`, …), and
otherwise HTTP 200 carrying the dispatcher's envelope — including
dispatch errors — with the dispatcher's state update. -/
theorem C6_theorem (w : World) (st : ServerState) (data : Json) :
    ((data.get "name" .null).truthy = false →
      MCPServer.http_execute_tool w st (.body data)
        = ((400, .error "Tool name not provided"), st))
    ∧ ((data.get "name" .null).truthy = true →
      MCPServer.http_execute_tool w st (.body data)
        = ((200, (MCPServer.handle_execute_tool w st (data.get "name" .null)
              (data.get "arguments" (.obj []))).1),
           (MCPServer.handle_execute_tool w st (data.get "name" .null)
              (data.get "arguments" (.obj []))).2)) := by
  have e : MCPServer.http_execute_tool w st (.body data)
      = (if !(data.get "name" .null).truthy then ((400, .error "Tool name not provided"), st)
         else ((200, (MCPServer.handle_execute_tool w st (data.get "name" .null)
                 (data.get "arguments" (.obj []))).1),
               (MCPServer.handle_execute_tool w st (data.get "name" .null)
                 (data.get "arguments" (.obj []))).2)) := rfl
  constructor
  · intro h
    rw [e, h]
    rfl
  · intro h
    rw [e, h]
    rfl

/-- C6 (witness): the amended theorem at two concrete bodies — the empty
object (no `name`, hence HTTP 400) and a `get_time` request (truthy
`name`, hence HTTP 200 with the time handler's content). -/
theorem C6_witness :
    ((Json.obj []).get "name" Json.null).truthy = false
    ∧ MCPServer.http_execute_tool wOk ServerState.init (.body (.obj []))
        = ((400, .error "Tool name not provided"), ServerState.init)
    ∧ ((Json.obj [("name", .str "get_time")]).get "name" Json.null).truthy = true
    ∧ (MCPServer.http_execute_tool wOk ServerState.init
        (.body (.obj [("name", .str "get_time")]))).1
        = (200, .executeToolResult "2025-01-01 00:00:00") :=
  ⟨rfl,
   (C6_theorem wOk ServerState.init (.obj [])).1 rfl,
   rfl,
   by
     rw [(C6_theorem wOk ServerState.init (.obj [("name", .str "get_time")])).2 rfl]
     rfl⟩

/-- The stdio loop answers every input line: one output line per input
line, whatever each line holds. -/
theorem stdioLoop_length (w : World) (ls : List StdioLine) :
    ∀ st : ServerState, (MCPServer.stdioLoop w st ls).length = ls.length := by
  induction ls with
  | nil => intro st; rfl
  | cons l rest ih =>
    intro st
    simp only [MCPServer.stdioLoop, List.length_cons, ih]

/-- The i-th output line of the stdio loop is the response to the i-th
input line, computed in the state accumulated over the earlier lines. -/
theorem stdioLoop_get (w : World) (ls : List StdioLine) :
    ∀ (st : ServerState) (i : Nat),
      (MCPServer.stdioLoop w st ls)[i]?
        = (ls[i]?).map fun l =>
            (MCPServer.stdioRespond w (MCPServer.stdioStateAfter w st (ls.take i)) l).1 := by
  induction ls with
  | nil => intro st i; simp [MCPServer.stdioLoop]
  | cons l rest ih =>
    intro st i
    cases i with
    | zero =>
      simp only [MCPServer.stdioLoop, List.getElem?_cons_zero, Option.map_some, List.take_zero]
      rfl
    | succ n =>
      simp only [MCPServer.stdioLoop, List.getElem?_cons_succ, List.take_succ_cons]
      rw [ih]
      rfl

/-- C7: a malformed stdio line is answered with the
`Invalid JSON: <detail>` error envelope and does not end the session:
the loop emits one response per input line (so reading continues past
the malformed one), and every line holding a well-formed request — in
particular every one after the malformed line — is still answered with
the dispatcher's response in the state accumulated so far (a malformed
line leaves the state unchanged). -/
theorem C7_theorem (w : World) (st : ServerState) (ls : List StdioLine) (i : Nat) (d : String)
    (hi : ls[i]? = some (.malformed d)) :
    (MCPServer.stdioLoop w st ls).length = ls.length
    ∧ (MCPServer.stdioLoop w st ls)[i]? = some (.error s!"Invalid JSON: {d}")
    ∧ ∀ (j : Nat) (req : Json), ls[j]? = some (.request req) →
        (MCPServer.stdioLoop w st ls)[j]?
          = some (MCPServer.stdioRespond w
              (MCPServer.stdioStateAfter w st (ls.take j)) (.request req)).1 := by
  refine ⟨stdioLoop_length w ls st, ?_, ?_⟩
  · rw [stdioLoop_get w ls st i, hi]
    rfl
  · intro j req hj
    rw [stdioLoop_get w ls st j, hj]
    rfl

/-- Input stream of the concrete C7 run: a malformed line followed by a
well-formed `list_tools` request. -/
def c7Lines : List StdioLine :=
  [.malformed "Expecting value: line 1 column 1 (char 0)",
   .request (.obj [("type", .str "list_tools")])]

/-- C7 (witness): the theorem on the concrete two-line session — the
malformed first line gets the `Invalid JSON` error line and the
well-formed second line is still answered. -/
theorem C7_witness :
    c7Lines[0]? = some (.malformed "Expecting value: line 1 column 1 (char 0)")
    ∧ (MCPServer.stdioLoop wOk ServerState.init c7Lines).length = c7Lines.length
    ∧ (MCPServer.stdioLoop wOk ServerState.init c7Lines)[0]?
        = some (.error "Invalid JSON: Expecting value: line 1 column 1 (char 0)")
    ∧ (MCPServer.stdioLoop wOk ServerState.init c7Lines)[1]?
        = some (MCPServer.stdioRespond wOk
            (MCPServer.stdioStateAfter wOk ServerState.init (c7Lines.take 1))
            (.request (.obj [("type", .str "list_tools")]))).1 :=
  ⟨rfl,
   (C7_theorem wOk ServerState.init c7Lines 0 "Expecting value: line 1 column 1 (char 0)" rfl).1,
   (C7_theorem wOk ServerState.init c7Lines 0 "Expecting value: line 1 column 1 (char 0)" rfl).2.1,
   (C7_theorem wOk ServerState.init c7Lines 0 "Expecting value: line 1 column 1 (char 0)" rfl).2.2
     1 (.obj [("type", .str "list_tools")]) rfl⟩
